import Mathlib

/-!
Verification development for the flowbuddy plan-generation core
(`backend/app/services/resolution_decomposer.py` and
`backend/app/services/plan_evaluator.py`).

The Python source is shallowly embedded: dictionaries become structures over
the fields the core reads, Python `date` values become natural numbers
(absolute day indices, with day `0` a Monday so that `weekday d = d % 7`),
clock times become minutes after midnight, and the fallible external Plan
Proposer becomes an explicit behavior record of `Except` outcomes.  Python
truthiness (`x or y`, `if x:`) is modelled by explicit helper functions.
Two leaf modules (`effort_band.py`, `availability_profile.py`) are not part
of the provided sources; the definitions embedding them are modelled from the
specification and are marked as such in their doc comments.
-/

namespace FlowBuddy

/-- Python truthiness for an optional integer (`None` and `0` are falsy). -/
def truthyInt : Option Int → Bool
  | none => false
  | some n => n != 0

/-- Python `a or b` for optional integers. -/
def pyOrInt (a b : Option Int) : Option Int := if truthyInt a then a else b

/-- Python `s or t` for plain strings (the empty string is falsy). -/
def orString (a b : String) : String := if a = "" then b else a

/-- Python `v or t` where `v` is an optional string and `t` a string. -/
def orOptString (a : Option String) (b : String) : String :=
  match a with
  | some s => orString s b
  | none => b

/-- Python truthiness for an optional string. -/
def truthyStr : Option String → Bool
  | none => false
  | some s => s != ""

/-- Python truthiness for an optional list of strings (`None` and `[]` falsy). -/
def truthyStrList : Option (List String) → Bool
  | none => false
  | some l => !l.isEmpty

/-- Boolean prefix test on character lists. -/
def charPrefix : List Char → List Char → Bool
  | [], _ => true
  | _ :: _, [] => false
  | a :: as, b :: bs => a == b && charPrefix as bs

/-- Boolean infix test on character lists. -/
def charInfix (needle : List Char) : List Char → Bool
  | [] => charPrefix needle []
  | b :: bs => charPrefix needle (b :: bs) || charInfix needle bs

/-- Python substring test `needle in hay` on strings. -/
def strContains (hay needle : String) : Bool :=
  charInfix needle.toList hay.toList

/-- Python `str.lower()` (ASCII case folding; the inputs are ASCII).  Core
`String.toLower` is not used because its byte-position recursion does not
reduce inside `decide`/`rfl` proofs; this char-list version does. -/
def pyLower (s : String) : String :=
  String.mk (s.toList.map Char.toLower)

/-- Python `str.strip()` — drop whitespace at both ends (same reduction note
as `pyLower`). -/
def pyStrip (s : String) : String :=
  String.mk (((s.toList.dropWhile Char.isWhitespace).reverse.dropWhile
    Char.isWhitespace).reverse)

/-- Word splitter behind `pySplitWs`. -/
def wordsAux : List Char → List Char → List String
  | [], acc => if acc.isEmpty then [] else [String.mk acc.reverse]
  | c :: cs, acc =>
    if c.isWhitespace then
      if acc.isEmpty then wordsAux cs [] else String.mk acc.reverse :: wordsAux cs []
    else wordsAux cs (c :: acc)

/-- Python `str.split()` (split on whitespace runs, dropping empty pieces). -/
def pySplitWs (s : String) : List String :=
  wordsAux s.toList []

/-- Fueled replacement loop behind `strReplace`. -/
def listReplaceFuel (pat repl : List Char) : Nat → List Char → List Char
  | 0, l => l
  | _ + 1, [] => []
  | fuel + 1, c :: cs =>
    if charPrefix pat (c :: cs) && !pat.isEmpty then
      repl ++ listReplaceFuel pat repl fuel (cs.drop (pat.length - 1))
    else c :: listReplaceFuel pat repl fuel cs

/-- Python `str.replace` for a non-empty pattern (all call sites use concrete
non-empty patterns). -/
def strReplace (s pat repl : String) : String :=
  String.mk (listReplaceFuel pat.toList repl.toList s.toList.length s.toList)

/-- Python `str.endswith`. -/
def strEndsWith (s suffix : String) : Bool :=
  charPrefix suffix.toList.reverse s.toList.reverse

/-- Digits of a decimal run, as a natural number. -/
def natOfDigits (cs : List Char) : Nat :=
  cs.foldl (fun acc c => acc * 10 + (c.toNat - 48)) 0

/-- Python `int(s)` on a plain decimal token (the call sites feed lowered
cadence tokens such as `"3"`; surrounding whitespace or a leading `+`, which
Python would also accept, do not occur there). -/
def strToInt? (s : String) : Option Int :=
  match s.toList with
  | [] => none
  | '-' :: rest =>
    if !rest.isEmpty && rest.all Char.isDigit then
      some (-((natOfDigits rest : Int))) else none
  | cs => if cs.all Char.isDigit then some ((natOfDigits cs : Int)) else none

/-- Python `s[:n]` on strings. -/
def strTake (s : String) (n : Nat) : String :=
  String.mk (s.toList.take n)

/-- Python `sep.join(parts)`. -/
def strIntercalate (sep : String) : List String → String
  | [] => ""
  | [x] => x
  | x :: y :: xs => x ++ sep ++ strIntercalate sep (y :: xs)

/-- Python `round(num / den)` for natural `num`, positive `den`: rounding
half-to-even, exactly as CPython rounds the corresponding rational.  (For the
only call site, `round(i * 7/count)` with `1 ≤ count ≤ 7` and `i < count`, the
double-precision evaluation in the source agrees with this exact rounding at
every input.) -/
def roundHalfEvenDiv (num den : Nat) : Nat :=
  let q := num / den
  let r := num % den
  if 2 * r < den then q
  else if den < 2 * r then q + 1
  else if q % 2 = 0 then q else q + 1

/-- Stable insertion into a sorted prefix (equal keys keep their order). -/
def stableInsert {α : Type} (le : α → α → Bool) (x : α) : List α → List α
  | [] => [x]
  | y :: ys => if le y x then y :: stableInsert le x ys else x :: y :: ys

/-- Stable sort (Python `list.sort` is stable). -/
def stableSortBy {α : Type} (le : α → α → Bool) (l : List α) : List α :=
  l.foldl (fun acc x => stableInsert le x acc) []

/-- Insert into a strictly sorted list, dropping duplicates. -/
def insertSortedDedup (x : Nat) : List Nat → List Nat
  | [] => [x]
  | y :: ys =>
    if x = y then y :: ys
    else if x < y then x :: y :: ys
    else y :: insertSortedDedup x ys

/-- Sorted deduplication `sorted({...})` for natural-number day sets. -/
def dedupSort (l : List Nat) : List Nat :=
  l.foldl (fun acc x => insertSortedDedup x acc) []

/-! ## Cadence structures (`_normalize_cadence_struct`, `_coerce_positive_int`,
`_build_cadence_struct`, `_stringify_cadence`) -/

/-- A cadence dictionary, over the keys the core reads.  `count` and
`times_per_week` are modelled as integer-or-absent (Python would coerce
numeric strings at `int(...)` call sites and raise on the rest; such junk
values are outside this model).  `none` for a key means the key is absent or
`None`. -/
structure CadenceDict where
  type? : Option String := none
  cadence? : Option String := none
  count : Option Int := none
  times_per_week : Option Int := none
  days : Option (List String) := none
  times : Option (List String) := none
deriving Repr, DecidableEq

/-- `_coerce_positive_int`, on integer-or-absent inputs. -/
def coerce_positive_int : Option Int → Option Int
  | none => none
  | some n => if 0 < n then some n else none

/-- Python `count or n` where `count` is the (already coerced) optional count. -/
def countOrDefault (c : Option Int) (n : Int) : Option Int :=
  if truthyInt c then c else some n

/-- The synonym-mapping step of `_normalize_cadence_struct`. -/
def cadence_synonym_step (cadenceType0 : String) (count0 : Option Int) :
    String × Option Int :=
  if cadenceType0 = "once_per_week" then ("x_per_week", countOrDefault count0 1)
  else if ["twice_per_week", "two_per_week", "2x_per_week", "2x_in_week"].contains cadenceType0 then
    ("x_per_week", countOrDefault count0 2)
  else if ["thrice_per_week", "three_per_week", "3x_per_week", "3x_in_week"].contains cadenceType0 then
    ("x_per_week", countOrDefault count0 3)
  else if cadenceType0 = "weekly" then ("x_per_week", countOrDefault count0 1)
  else (cadenceType0, count0)

/-- `_normalize_cadence_struct`: canonicalize a raw cadence dictionary. -/
def normalize_cadence_struct (struct : CadenceDict) : CadenceDict :=
  let cadenceType0 := pyLower (orOptString struct.type? (orOptString struct.cadence? ""))
  let count0 := coerce_positive_int (pyOrInt struct.count struct.times_per_week)
  let days0 := struct.days
  let step1 : String × Option Int := cadence_synonym_step cadenceType0 count0
  let cadenceType1 :=
    if step1.1 = "" then
      if truthyInt step1.2 then "x_per_week"
      else if truthyStrList days0 then "specific_days"
      else "flex"
    else step1.1
  { struct with
    type? := some cadenceType1
    count := if truthyInt step1.2 then step1.2 else struct.count
    days :=
      if truthyStrList days0 then some ((days0.getD []).map (fun d => pyLower (pyStrip d)))
      else struct.days }

/-! ## Task and plan dictionaries -/

/-- A day-field value (`suggested_day` / `scheduled_day`): either a parseable
ISO date, modelled as an absolute day index (day `0` is a Monday, so
`weekday d = d % 7`), or an unparseable string. -/
inductive IsoStr where
  | valid (d : Nat)
  | junk (s : String)
deriving Repr, DecidableEq

/-- Python truthiness of an optional day field (a parseable date renders as a
non-empty string, hence truthy). -/
def truthyIso : Option IsoStr → Bool
  | none => false
  | some (.valid _) => true
  | some (.junk s) => s != ""

/-- Python `a or b` for day fields. -/
def pyOrIso (a b : Option IsoStr) : Option IsoStr := if truthyIso a then a else b

/-- `_parse_iso_date` on a day-field value. -/
def parse_iso_date : Option IsoStr → Option Nat
  | some (.valid d) => some d
  | _ => none

/-- A raw cadence value as carried by a task: a string, a dictionary, or
anything else (e.g. `None`). -/
inductive RawCadence where
  | str (s : String)
  | dict (d : CadenceDict)
  | other
deriving Repr, DecidableEq

/-- A task dictionary, over the keys the core reads.  Times are canonical
`"HH:MM"` strings, modelled as minutes after midnight. -/
structure Task where
  title : Option String := none
  intent : Option String := none
  estimated_duration_min : Option Int := none
  duration_min : Option Int := none
  cadence : RawCadence := .other
  cadence_struct : Option CadenceDict := none
  suggested_day : Option IsoStr := none
  suggested_time : Option Nat := none
  scheduled_day : Option IsoStr := none
  scheduled_time : Option Nat := none
  confidence : Option String := some "medium"
  note : Option String := none
deriving Repr, DecidableEq

/-- `_task_duration` (plan_evaluator) and `_extract_duration`
(resolution_decomposer): both read `estimated_duration_min or duration_min`
and default to 30. -/
def task_duration (t : Task) : Int :=
  match pyOrInt t.estimated_duration_min t.duration_min with
  | some n => n
  | none => 30

/-- `task.get("_cadence_struct") or task.get("cadence")`: the cadence value the
evaluator inspects (a `_cadence_struct` set by enrichment is a non-empty dict,
hence truthy). -/
def evalCadenceVal (t : Task) : RawCadence :=
  match t.cadence_struct with
  | some d => .dict d
  | none => t.cadence

/-- `_cadence_type` (plan_evaluator). -/
def cadence_type_of (t : Task) : String :=
  match evalCadenceVal t with
  | .dict c => pyLower (orOptString c.type? (orOptString c.cadence? ""))
  | .str s => pyLower s
  | .other => ""

/-- `_cadence_estimate` (plan_evaluator): cadence type and an occurrence
estimate. -/
def cadence_estimate (t : Task) : String × Int :=
  match evalCadenceVal t with
  | .dict c =>
    let ct := pyLower (orOptString c.type? (orOptString c.cadence? ""))
    let cnt := (pyOrInt c.count c.times_per_week).getD 0
    let days := c.days.getD []
    if ct = "daily" then (ct, 7)
    else if ct = "specific_days" then (ct, (days.length : Int))
    else if ct = "x_per_week" then (ct, cnt)
    else (orString ct "flex", 1)
  | .str s =>
    let ct := pyLower s
    if ct = "daily" then (ct, 7)
    else if ct = "specific_days" then (ct, 0)
    else if ct = "x_per_week" then (ct, 0)
    else (orString ct "flex", 1)
  | .other => ("flex", 1)

/-- `_is_repeating_task` (plan_evaluator). -/
def is_repeating_task (t : Task) : Bool :=
  let (ct, cnt) := cadence_estimate t
  if ct = "daily" then true
  else if ct = "x_per_week" && 5 ≤ cnt then true
  else if ct = "specific_days" && 5 ≤ cnt then true
  else false

/-- A key of the tasks-per-day counting dictionary.  (Python uses raw strings;
an unparseable scheduled day that happens to read "daily"/"weekly"/"flex" or a
weekday name would collide there — no pipeline-produced plan does this, and the
model keeps the key kinds apart.) -/
inductive DayKey where
  | isoDay (d : Nat)
  | junkDay (s : String)
  | daily
  | weekly
  | flex
  | named (s : String)
deriving Repr, DecidableEq

/-- `counts.setdefault(k, 0); counts[k] += inc` on an insertion-ordered
association list. -/
def bumpCount (m : List (DayKey × Int)) (k : DayKey) (inc : Int) : List (DayKey × Int) :=
  match m with
  | [] => [(k, inc)]
  | (k', v) :: rest => if k' = k then (k', v + inc) :: rest else (k', v) :: bumpCount rest k inc

/-- The counting key of a truthy day-field value. -/
def keyOfIso : IsoStr → DayKey
  | .valid d => .isoDay d
  | .junk s => .junkDay s

/-- `_estimate_tasks_per_day` (plan_evaluator). In the `specific_days` branch
Python reads `task.get("cadence", {}).get("days")` — an `AttributeError` if the
raw cadence is a string; that branch is unreachable for tasks with a scheduled
day, and the model reads `[]` there. -/
def estimate_tasks_per_day (tasks : List Task) : List (DayKey × Int) :=
  tasks.foldl (fun counts task =>
    if task_duration task < 15 then counts
    else
      let sd := pyOrIso task.scheduled_day task.suggested_day
      if truthyIso sd then bumpCount counts (keyOfIso (sd.getD (.junk ""))) 1
      else
        let (ct, cnt) := cadence_estimate task
        if ct = "daily" then bumpCount counts .daily 1
        else if ct = "specific_days" then
          let days := match task.cadence with
            | .dict c => c.days.getD []
            | _ => []
          days.foldl (fun cs d => bumpCount cs (.named d) 1) counts
        else if ct = "x_per_week" then bumpCount counts .weekly cnt
        else bumpCount counts .flex 1) []

/-! ## Effort budgets and evaluation -/

/-- One row of the effort budget table. -/
structure EffortBudget where
  minutes_per_day : Nat × Nat
  weekly_minutes : Nat
  tasks_per_day : Nat × Nat
deriving Repr, DecidableEq

/-- Modelled from the spec: `effort_band.py` (`EFFORT_BAND_BUDGETS`) is not
among the provided sources.  The spec fixes the shape (band → minutes/day
range, weekly minute cap, tasks/day range; unknown bands resolve to "medium")
and pins the medium band's weekly cap at 300 minutes (§8); the light and
intense rows are instantiations consistent with the band ordering. -/
def EFFORT_BAND_BUDGETS : List (String × EffortBudget) :=
  [("light", ⟨(10, 20), 150, (1, 1)⟩),
   ("medium", ⟨(15, 45), 300, (1, 2)⟩),
   ("intense", ⟨(45, 90), 600, (2, 3)⟩)]

/-- Week section of a plan (`weeks` entries). -/
structure WeekSection where
  week : Int := 1
  focus : String := ""
  tasks : List Task := []
deriving Repr, DecidableEq

/-- A weekly milestone. -/
structure Milestone where
  week_number : Int
  focus_summary : String := ""
  success_criteria : List String := []
deriving Repr, DecidableEq

/-- The evaluation-summary block written by `_finalize_plan`. -/
structure EvalSummary where
  score : Int
  band : String
  passed : Bool
  weekly_minutes_week1 : Int
  budget_violations_count : Nat
  overload_warnings_count : Nat
  vagueness_flags : List String
  cadence_issues : List String
  repair_used : Bool
  regenerate_used : Bool
  fallback_used : Bool
deriving Repr, DecidableEq

/-- A plan dictionary (the validated `ResolutionPlan.model_dump()` shape). -/
structure Plan where
  resolution_title : String := ""
  why_this_matters : String := ""
  duration_weeks : Int := 4
  milestones : List Milestone := []
  week_1_tasks : List Task := []
  weeks : List WeekSection := []
  band : String := "medium"
  band_rationale : String := "Default effort band"
  evaluation_summary : Option EvalSummary := none
deriving Repr, DecidableEq

/-- Structured goal hints (`_refine_resolution_goal` output). -/
structure RefinedGoal where
  raw : String := ""
  activity : Option String := none
  secondary_focuses : List String := []
  target_duration_min : Option Int := none
  target_frequency : Option String := none
deriving Repr, DecidableEq

/-- `EvaluationResult` (plan_evaluator). -/
structure EvaluationResult where
  band : String
  weekly_minutes : List Int
  max_tasks_per_day_week1 : Int
  avg_tasks_per_day_week1 : ℚ
  vagueness_flags : List String := []
  cadence_issues : List String := []
  budget_violations : List String := []
  overload_warnings : List String := []
  score : Int := 100
  passed : Bool := false
  repair_instructions : String := ""
deriving Repr, DecidableEq

/-- `VAGUE_TOKENS`. -/
def VAGUE_TOKENS : List String := ["stuff", "do something", "try to"]

/-- The vagueness scan of `evaluate_plan` over the week-1 tasks. -/
def vaguenessFlagsOf (week1 : List Task) : List String :=
  week1.foldl (fun acc task =>
    let title := pyLower (pyStrip (orOptString task.title ""))
    if (pySplitWs title).length < 3 &&
        !(["scale", "chapter", "report", "session"].any (fun kw => strContains title kw)) then
      acc ++ [orOptString task.title "Untitled task"]
    else if VAGUE_TOKENS.any (fun tok =>
        tok == title || (strContains title tok && title.length < 20)) then
      acc ++ [orOptString task.title "Untitled task"]
    else acc) []

/-- `_build_repair_instructions` (plan_evaluator). -/
def build_repair_instructions
    (budget vagueness cadence overload : List String) : String :=
  let instructions :=
    (if !budget.isEmpty then ["Reduce total minutes to stay within the effort band budget."] else []) ++
    (if !vagueness.isEmpty then ["Replace vague titles with concrete actions and measurable outputs."] else []) ++
    (if !cadence.isEmpty then ["Add repeating practice loops with clear cadence for habit/skill goals."] else []) ++
    (if !overload.isEmpty then ["Limit excessively long sessions and spread tasks across days."] else [])
  orString (strIntercalate " " (instructions.take 4))
    "Adjust tasks to fit the effort band constraints."

/-- `evaluate_plan` (plan_evaluator).  The weekly budget test `minutes >
weekly_minutes * 1.2` is embedded exactly as `5 * minutes > 6 * weekly_minutes`
(the double-precision product in the source agrees with the exact rational on
every integer comparison used here), and `int(target_duration * 0.2)` as
truncated division by 5. -/
def evaluate_plan (plan : Plan) (band : String) (resolutionType : Option String)
    (goalRequirements : RefinedGoal) : EvaluationResult :=
  let band := if (EFFORT_BAND_BUDGETS.lookup band).isSome then band else "medium"
  let budgets := (EFFORT_BAND_BUDGETS.lookup band).getD ⟨(15, 45), 300, (1, 2)⟩
  let requiredActivity := pyLower (orOptString goalRequirements.activity "")
  let targetDuration := goalRequirements.target_duration_min
  let weeksData := plan.weeks
  let weeklyMinutes : List Int :=
    weeksData.map (fun w => (w.tasks.map task_duration).sum)
  let week1Tasks := ((weeksData.head?).map (fun w => w.tasks)).getD []
  let taskCounts := estimate_tasks_per_day week1Tasks
  let maxTasksPerDay : Int := (taskCounts.map (fun kv => kv.2)).foldl max 0
  let avgTasksPerDay : ℚ :=
    if taskCounts.isEmpty then 0
    else ((taskCounts.map (fun kv => kv.2)).sum : ℚ) / (taskCounts.length : ℚ)
  let vaguenessFlags := vaguenessFlagsOf week1Tasks
  let weeklyCap : Int := (budgets.weekly_minutes : Int)
  let allowedInt : Int := 6 * weeklyCap / 5
  let maxAllowed : Int := (budgets.tasks_per_day.2 : Int)
  let budgetViolations :=
    (weeklyMinutes.filter (fun m => 5 * m > 6 * weeklyCap)).map
      (fun m => s!"Week budget exceeded ({m} min > {allowedInt} min).")
  let budgetViolations :=
    if maxTasksPerDay > maxAllowed then
      budgetViolations ++
        [s!"Week1 tasks/day exceeded ({maxTasksPerDay} > {maxAllowed})."]
    else budgetViolations
  let cadenceIssues :=
    if ["skill", "learning", "habit", "health"].contains (resolutionType.getD "∅") then
      (if week1Tasks.any is_repeating_task then []
       else ["Needs a repeating practice loop in Week 1."]) ++
      (if week1Tasks.all (fun t => cadence_type_of t = "flex") then
        ["Too many flex cadences for habit/skill goal."]
       else [])
    else []
  let overloadWarnings :=
    week1Tasks.foldl (fun acc task =>
      let duration := task_duration task
      let titleText := orOptString task.title "Task"
      if duration > 120 && band != "intense" &&
          !(["project", "work"].contains (resolutionType.getD "∅")) then
        acc ++ [s!"{titleText} is too long ({duration} min)."]
      else if duration > 180 then
        acc ++ [s!"{titleText} exceeds 3 hours."]
      else acc) []
  let longTasks := week1Tasks.filter (fun t => task_duration t > 60)
  let overloadWarnings :=
    if band = "medium" && longTasks.length > 2 then
      overloadWarnings ++ ["Too many long tasks (>60 min) in Week 1 for medium band."]
    else overloadWarnings
  let cadenceIssues :=
    if requiredActivity ≠ "" then
      let keywords := pySplitWs requiredActivity
      let activityFound := week1Tasks.any (fun task =>
        let haystack :=
          pyLower (orOptString task.title "") ++ " " ++ pyLower (orOptString task.intent "")
        keywords.any (fun kw => strContains haystack kw))
      if activityFound then cadenceIssues
      else cadenceIssues ++ [s!"Week 1 tasks must include {requiredActivity}."]
    else cadenceIssues
  let cadenceIssues :=
    if truthyInt targetDuration then
      let td := targetDuration.getD 0
      let tolerance := max 5 (td.tdiv 5)
      let durationFound := week1Tasks.any (fun task => |task_duration task - td| ≤ tolerance)
      if durationFound then cadenceIssues
      else cadenceIssues ++ [s!"Missing session near requested duration (~{td} min)."]
    else cadenceIssues
  let score : Int :=
    100 - 30 * budgetViolations.length - 5 * vaguenessFlags.length -
      5 * cadenceIssues.length - 15 * overloadWarnings.length
  let score := max score 0
  let relaxedBudgetOk := budgetViolations.length == 1 && decide (60 ≤ score)
  let passed := (budgetViolations.isEmpty && decide (50 ≤ score)) || relaxedBudgetOk
  let repairInstructions :=
    if passed then ""
    else build_repair_instructions budgetViolations vaguenessFlags cadenceIssues overloadWarnings
  { band := band
    weekly_minutes := weeklyMinutes
    max_tasks_per_day_week1 := maxTasksPerDay
    avg_tasks_per_day_week1 := avgTasksPerDay
    vagueness_flags := vaguenessFlags
    cadence_issues := cadenceIssues
    budget_violations := budgetViolations
    overload_warnings := overloadWarnings
    score := score
    passed := passed
    repair_instructions := repairInstructions }

/-! ## Goal requirement extraction (`_refine_resolution_goal` and helpers) -/

/-- `ACTIVITY_KEYWORDS`, in source (insertion) order. -/
def ACTIVITY_KEYWORDS : List (String × String) :=
  [("run", "running"), ("running", "running"), ("jog", "running"),
   ("walk", "walking"), ("walking", "walking"), ("yoga", "yoga practice"),
   ("meditate", "meditation"), ("meditation", "meditation"),
   ("guitar", "guitar practice"), ("piano", "piano practice"),
   ("music", "music practice"), ("strength", "strength training"),
   ("lift", "strength training"), ("code", "coding"), ("write", "writing")]

/-- After a digit run, does `\s*(?:minute|min|mins|minutes|hour|hr|hours)`
match?  (Matching any alternative is the same as starting with "min", "hour"
or "hr".) -/
def unitFollows (cs : List Char) : Bool :=
  let rest := cs.dropWhile Char.isWhitespace
  charPrefix "min".toList rest || charPrefix "hour".toList rest ||
    charPrefix "hr".toList rest

/-- The leftmost regex match of `(\d+)\s*(?:minute|...|hours)`: scan for the
first position whose maximal digit run is followed by a unit word. -/
def findDurationValue : List Char → Option Nat
  | [] => none
  | c :: cs =>
    if c.isDigit then
      if unitFollows ((c :: cs).dropWhile Char.isDigit) then
        some (natOfDigits ((c :: cs).takeWhile Char.isDigit))
      else findDurationValue cs
    else findDurationValue cs

/-- `_extract_duration_minutes`. -/
def extract_duration_minutes (text : String) : Option Int :=
  match findDurationValue text.toList with
  | none => none
  | some value =>
    if strContains text "hour" || strContains text "hr" then
      if value ≤ 3 then some ((value : Int) * 60) else some (value : Int)
    else some (value : Int)

/-- `_extract_frequency`. -/
def extract_frequency (text : String) : Option String :=
  if ["every day", "daily"].any (fun p => strContains text p) then some "daily"
  else if strContains text "weekly" then some "weekly"
  else if ["3x", "three times", "thrice"].any (fun p => strContains text p) then some "3x/week"
  else if ["twice", "2x"].any (fun p => strContains text p) then some "2x/week"
  else none

/-- `_detect_activity`. -/
def detect_activity (text : String) (resolutionType : Option String) : Option String :=
  match ACTIVITY_KEYWORDS.find? (fun kv => strContains text kv.1) with
  | some kv => some kv.2
  | none =>
    let normalized := pyLower (orOptString resolutionType "")
    if ["health", "fitness", "habit"].contains normalized && strContains text "run" then
      some "running"
    else none

/-- `_detect_secondary_focuses` (`sorted(set)` = dedup then sort). -/
def detect_secondary_focuses (text : String) (primary : Option String) : List String :=
  let collected := ACTIVITY_KEYWORDS.foldl (fun acc kv =>
    if some kv.2 == primary then acc
    else if strContains text kv.1 then
      if acc.contains kv.2 then acc else acc ++ [kv.2]
    else acc) []
  stableSortBy (fun a b => decide (a ≤ b)) collected

/-- `_refine_resolution_goal`. -/
def refine_resolution_goal (userInput : String) (resolutionType : Option String) :
    RefinedGoal :=
  let text := pyLower userInput
  let activity := detect_activity text resolutionType
  { raw := userInput
    activity := activity
    secondary_focuses := detect_secondary_focuses text activity
    target_duration_min := extract_duration_minutes text
    target_frequency := extract_frequency text }

/-! ## Cadence building and rendering -/

/-- `_build_cadence_struct`: coerce a raw cadence value to a normalized
dictionary.  (`setdefault("times", ...)` only fills an absent key.) -/
def build_cadence_struct : RawCadence → CadenceDict
  | .dict d =>
    let withTimes : CadenceDict :=
      { d with times := match d.times with
          | none => some ["morning"]
          | some l => some l }
    let withType : CadenceDict :=
      if truthyStr withTimes.type? then
        { withTimes with type? := some (pyLower (withTimes.type?.getD "")) }
      else withTimes
    normalize_cadence_struct withType
  | .str s => normalize_cadence_struct { type? := some (pyLower s), times := some ["morning"] }
  | .other => normalize_cadence_struct { type? := some "flex", times := some ["morning"] }

/-- `cadence_type.split("x")[0]`: the part before the first `x`. -/
def beforeFirstX (s : String) : String :=
  String.mk (s.toList.takeWhile (fun c => c ≠ 'x'))

/-- Python `str.isdigit` (over ASCII digits, which is all the call site sees). -/
def isDigits (s : String) : Bool :=
  s != "" && s.toList.all Char.isDigit

/-- Python `str.capitalize` (first character upper, rest lower). -/
def pyCapitalize (s : String) : String :=
  match s.toList with
  | [] => ""
  | c :: rest => String.mk (c.toUpper :: rest.map Char.toLower)

/-- `_stringify_cadence`. -/
def stringify_cadence (struct : CadenceDict) : String :=
  let normalized := normalize_cadence_struct struct
  let cadenceType := orOptString normalized.type? (orOptString normalized.cadence? "")
  let count := pyOrInt normalized.count normalized.times_per_week
  let days := normalized.days
  let countVal := count.getD 0
  let xPrefix := beforeFirstX cadenceType
  if cadenceType = "daily" then "daily"
  else if ["one_time", "once"].contains cadenceType then "once"
  else if (["x_per_week", "times_per_week"].contains cadenceType && truthyInt count) then
    s!"{countVal}x per week"
  else if strEndsWith cadenceType "x_per_week" && isDigits xPrefix then
    s!"{xPrefix}x per week"
  else if cadenceType = "specific_days" && truthyStrList days then
    "Specific days: " ++ strIntercalate ", " ((days.getD []).map pyCapitalize)
  else orString cadenceType "flex"

/-! ## Slot scheduler (`_enrich_tasks_with_schedule` and helpers) -/

/-- `_normalize_days`: weekday names to indexes (Monday = 0). -/
def WEEKDAY_MAP : List (String × Nat) :=
  [("monday", 0), ("tuesday", 1), ("wednesday", 2), ("thursday", 3),
   ("friday", 4), ("saturday", 5), ("sunday", 6)]

/-- `_normalize_days`. -/
def normalize_days (rawDays : Option (List String)) : List Nat :=
  match rawDays with
  | none => []
  | some days =>
    days.foldl (fun acc day =>
      match WEEKDAY_MAP.lookup (pyLower (pyStrip day)) with
      | some idx => acc ++ [idx]
      | none => acc) []

/-- `_confidence_level` (on the already-normalized preference inputs). -/
def confidence_level (preferredDays : List Nat) (preferredBlocks : List String) : String :=
  if !preferredDays.isEmpty && !preferredBlocks.isEmpty then "high"
  else if !preferredDays.isEmpty || !preferredBlocks.isEmpty then "medium"
  else "low"

/-- `_preferred_time_for_resolution` (times as minutes: 07:30 = 450, 13:00 =
780, 19:00 = 1140, 21:00 = 1260, 09:00 = 540, 10:00 = 600). -/
def preferred_time_for_resolution (resolutionType : Option String)
    (userBlocks : List String) : Nat :=
  match userBlocks.head? with
  | some first =>
    ((([("morning", 450), ("afternoon", 780), ("evening", 1140), ("night", 1260)] :
        List (String × Nat)).lookup (pyLower (pyStrip first))).getD 540)
  | none =>
    let normalized := pyLower (orOptString resolutionType "")
    if ["habit", "health", "fitness"].contains normalized then 450
    else if ["skill", "learning", "project", "hobby"].contains normalized then 1140
    else 600

/-- `_pick_time`.  `workHours` models a well-formed `"HH:MM-HH:MM"` string by
its two hour components; an unparseable string (the `except` path) behaves
like `none`.  18:30 = 1110. -/
def pick_time (preferredTime : Nat) (workHours : Option (Nat × Nat)) : Nat :=
  match workHours with
  | none => preferredTime
  | some (startHour, endHour) =>
    let prefHour := preferredTime / 60
    if startHour ≤ prefHour && prefHour < endHour then 1110 else preferredTime

/-- Day-indexed maps (Python dicts keyed by `date`). -/
abbrev DayMap (α : Type) := List (Nat × α)

/-- Lookup with a default (`dict.get` / `setdefault` read). -/
def dayMapGet {α : Type} (m : DayMap α) (d : Nat) (dflt : α) : α :=
  (m.lookup d).getD dflt

/-- Replace-or-insert (dict write). -/
def dayMapSet {α : Type} (m : DayMap α) (d : Nat) (v : α) : DayMap α :=
  match m with
  | [] => [(d, v)]
  | (d', v') :: rest => if d' = d then (d', v) :: rest else (d', v') :: dayMapSet rest d v

/-- The per-day load lists (`daily_load`). -/
abbrev LoadMap := DayMap (List Int)

/-- `len([d for d in load if d >= 15])`: the day's heavy-task count. -/
def effectiveLoad (l : List Int) : Nat := (l.filter (fun d => 15 ≤ d)).length

/-- `duration > 60 and last_long_day and (day - last_long_day).days <= 1`. -/
def longConflict (duration : Int) (lastLongDay : Option Nat) (day : Nat) : Bool :=
  duration > 60 &&
    (match lastLongDay with
     | some ld => (day : Int) - (ld : Int) ≤ 1
     | none => false)

/-- The 21-iteration forward scan of `_schedule_on_or_after`; `none` means the
scan was exhausted. -/
def scheduleScan (preferredDays : List Nat) (duration : Int) (load : LoadMap)
    (lastLongDay : Option Nat) : Nat → Nat → Option Nat
  | 0, _ => none
  | fuel + 1, day =>
    let weekday := day % 7
    let matchesPreference := preferredDays.isEmpty || preferredDays.contains weekday
    if matchesPreference && effectiveLoad (dayMapGet load day []) < 2 &&
        !longConflict duration lastLongDay day then
      some day
    else scheduleScan preferredDays duration load lastLongDay fuel (day + 1)

/-- `_schedule_on_or_after`: the chosen day and the updated load map (the
source mutates `daily_load` in place; the accepted — or force-assigned — day
gets the duration appended). -/
def schedule_on_or_after (targetDay : Nat) (preferredDays : List Nat) (duration : Int)
    (load : LoadMap) (lastLongDay : Option Nat) : Nat × LoadMap :=
  match scheduleScan preferredDays duration load lastLongDay 21 targetDay with
  | some day => (day, dayMapSet load day (dayMapGet load day [] ++ [duration]))
  | none => (targetDay, dayMapSet load targetDay (dayMapGet load targetDay [] ++ [duration]))

/-- `_evenly_spaced_days`. -/
def evenly_spaced_days (count : Int) (weekStart : Nat) : List Nat :=
  if count ≤ 1 then [weekStart]
  else
    let c : Nat := max 1 (min count.toNat 7)
    (List.range c).map (fun i => weekStart + min 6 (roundHalfEvenDiv (7 * i) c))

/-- The `specific_days` offset formula of `_expand_target_days`
(`week_start + timedelta(days=(idx - week_start.weekday()) % 7)`): the first
occurrence of weekday `idx` on or after `weekStart`. -/
def first_occurrence_on_or_after (weekStart idx : Nat) : Nat :=
  weekStart + (((idx : Int) - ((weekStart % 7 : Nat) : Int)).emod 7).toNat

/-- `_expand_target_days`.  (`hint_date` is computed in the source and never
used; every Python `date` is truthy, so the closing `if day` filter keeps all
days.) -/
def expand_target_days (cadenceStruct : CadenceDict) (weekStart : Nat)
    (repeatDaily : Bool) (firstDayHint : Option IsoStr) : List Nat :=
  let cadenceType :=
    pyLower (orOptString cadenceStruct.type? (orOptString cadenceStruct.cadence? ""))
  let _hintDate := parse_iso_date firstDayHint
  let days : List Nat :=
    if cadenceType = "daily" || (repeatDaily && strContains cadenceType "daily") then
      (List.range 7).map (fun i => weekStart + i)
    else if cadenceType = "specific_days" then
      (normalize_days cadenceStruct.days).map (first_occurrence_on_or_after weekStart)
    else if cadenceType = "x_per_week" || cadenceType = "times_per_week" then
      evenly_spaced_days
        ((pyOrInt cadenceStruct.count (pyOrInt cadenceStruct.times_per_week (some 1))).getD 1)
        weekStart
    else if strEndsWith cadenceType "x_per_week" then
      evenly_spaced_days ((strToInt? (beforeFirstX cadenceType)).getD 1) weekStart
    else if cadenceType = "2x_in_week" || cadenceType = "3x_in_week" then
      evenly_spaced_days ((strToInt? (beforeFirstX cadenceType)).getD 1) weekStart
    else if ["once", "one_time"].contains cadenceType then [weekStart]
    else if ["twice", "twice_per_week", "two_per_week"].contains cadenceType then
      evenly_spaced_days 2 weekStart
    else if ["thrice", "thrice_per_week", "three_per_week"].contains cadenceType then
      evenly_spaced_days 3 weekStart
    else if ["once_per_week", "one_time", "once"].contains cadenceType then [weekStart]
    else if ["twice_per_week", "two_per_week"].contains cadenceType then
      evenly_spaced_days 2 weekStart
    else if ["thrice_per_week", "three_per_week"].contains cadenceType then
      evenly_spaced_days 3 weekStart
    else if cadenceType = "once" then [weekStart]
    else [weekStart]
  dedupSort days

/-- The candidate loop of `_find_free_time_slot`: try `fuel` more 30-minute
increments from `offset`; exhaustion force-assigns the base time. -/
def findFreeFrom (baseTime : Nat) (used : List Nat) : Nat → Nat → Nat × List Nat
  | _, 0 => (baseTime, used ++ [baseTime])
  | offset, fuel + 1 =>
    let candidate := (baseTime + offset * 30) % 1440
    if candidate ∈ used then findFreeFrom baseTime used (offset + 1) fuel
    else (candidate, used ++ [candidate])

/-- `_find_free_time_slot` (the used-times set as a membership list). -/
def find_free_time_slot (baseTime : Nat) (used : List Nat) : Nat × List Nat :=
  findFreeFrom baseTime used 0 5

/-- Per-task user context, over the keys the scheduler reads. -/
structure UserContext where
  preferred_days : Option (List String) := none
  preferred_time_blocks : List String := []
  work_hours : Option (Nat × Nat) := none
deriving Repr, DecidableEq

/-- Mutable scheduler state threaded through `_enrich_tasks_with_schedule`. -/
structure EnrichState where
  dailyLoad : LoadMap := []
  lastLongDay : Option Nat := none
  dailyTimeSlots : DayMap (List Nat) := []
deriving Repr, DecidableEq

/-- The per-task loop body of `_enrich_tasks_with_schedule`: expand the
task's target days and place one clone per target day. -/
def enrich_step (weekStart : Nat) (preferredDays : List Nat) (confidence : String)
    (timePref : Nat) (workHours : Option (Nat × Nat)) (repeatDaily : Bool)
    (acc : EnrichState × List Task) (original : Task) : EnrichState × List Task :=
  let base := original
  let duration := task_duration base
  let cadenceStruct := build_cadence_struct base.cadence
  let targetDays0 := expand_target_days cadenceStruct weekStart repeatDaily base.scheduled_day
  let targetDays := if targetDays0.isEmpty then [weekStart] else targetDays0
  targetDays.foldl (fun (acc2 : EnrichState × List Task) targetDay =>
    let st := acc2.1
    let out := acc2.2
    let sched := schedule_on_or_after targetDay preferredDays duration
      st.dailyLoad st.lastLongDay
    let candidateDay := sched.1
    let lastLong' := if duration > 60 then some candidateDay else st.lastLongDay
    let baseTime := pick_time timePref workHours
    let slot := find_free_time_slot baseTime (dayMapGet st.dailyTimeSlots candidateDay [])
    let clone : Task :=
      { base with
        suggested_day := some (.valid candidateDay)
        suggested_time := some slot.1
        scheduled_day := some (.valid candidateDay)
        scheduled_time := some slot.1
        estimated_duration_min := some duration
        confidence := some confidence
        cadence_struct := some cadenceStruct }
    ({ dailyLoad := sched.2
       lastLongDay := lastLong'
       dailyTimeSlots := dayMapSet st.dailyTimeSlots candidateDay slot.2 }, out ++ [clone])) acc

/-- `_enrich_tasks_with_schedule`.  `today` is the `date.today()` anchor
(absolute day index). -/
def enrich_tasks_with_schedule (tasks : List Task) (resolutionType : Option String)
    (userContext : Option UserContext) (repeatDaily : Bool) (today : Nat) : List Task :=
  let weekStart := today
  let ctx := userContext.getD {}
  let preferredDays := normalize_days ctx.preferred_days
  let preferredBlocks := ctx.preferred_time_blocks
  let workHours := ctx.work_hours
  let confidence := confidence_level preferredDays preferredBlocks
  let timePref := preferred_time_for_resolution resolutionType preferredBlocks
  (tasks.foldl
    (enrich_step weekStart preferredDays confidence timePref workHours repeatDaily)
    ({}, [])).2

/-! ## Week-one preparation (`_prepare_week_one_tasks` and templates) -/

/-- `SETUP_KEYWORDS`. -/
def SETUP_KEYWORDS : List String :=
  ["setup", "set up", "design", "stage", "organize", "prepare", "select",
   "acquire", "environment"]

/-- `_is_setup_task`. -/
def is_setup_task (title : Option String) : Bool :=
  match title with
  | some t => SETUP_KEYWORDS.any (fun kw => strContains (pyLower t) kw)
  | none => false

/-- `_cadence_supports_consistency`. -/
def cadence_supports_consistency (rawCadence : RawCadence) : Bool :=
  let ct : String × Option Int :=
    match rawCadence with
    | .dict d => (pyLower (orOptString d.type? ""), pyOrInt d.count d.times_per_week)
    | .str s => (pyLower s, none)
    | .other => ("", none)
  if ["daily", "everyday"].contains ct.1 then true
  else if ["x_per_week", "times_per_week"].contains ct.1 then 3 ≤ (ct.2.getD 0)
  else false

/-- A task/milestone template row (title, intent, duration, cadence, note). -/
structure TaskTemplate where
  title : String
  intent : String
  duration : Int
  cadence : RawCadence
  note : Option String := none
deriving Repr, DecidableEq

/-- `CONSISTENCY_TEMPLATES`. -/
def CONSISTENCY_TEMPLATES : List (String × TaskTemplate) :=
  [("learning",
    ⟨"Daily focused study",
     "Show up every day for a short, high-quality reading or study block.", 30,
     .dict { type? := some "daily", times := some ["evening"] },
     some "Log one takeaway after each session so the learning sticks."⟩),
   ("habit",
    ⟨"Micro-habit repetition",
     "Reinforce the habit with a tiny, repeatable action anchored to a daily cue.", 10,
     .dict { type? := some "daily", times := some ["morning"] },
     some "Keep it frictionless; focus on showing up, not perfection."⟩),
   ("health",
    ⟨"Core practice block",
     "Get reps in the primary movement with gentle volume.", 25,
     .dict { type? := some "x_per_week", count := some 4, times := some ["morning"] },
     some "Alternate easy and moderate efforts to avoid burnout."⟩),
   ("fitness",
    ⟨"Core practice block",
     "Get reps in the primary movement with gentle volume.", 25,
     .dict { type? := some "x_per_week", count := some 4, times := some ["morning"] },
     some "Alternate easy and moderate efforts to avoid burnout."⟩),
   ("project",
    ⟨"Daily maker time",
     "Reserve a consistent block to advance the deliverable visibly.", 35,
     .dict { type? := some "x_per_week", count := some 4, times := some ["morning"] },
     some "Ship a tiny outcome each block (draft paragraph, outline, proof)."⟩)]

/-- `TYPE_DEFAULT_TEMPLATE`. -/
def TYPE_DEFAULT_TEMPLATE : List (String × String) :=
  [("skill", "skill_generic"), ("learning", "skill_generic"), ("habit", "habit"),
   ("health", "fitness"), ("fitness", "fitness"), ("project", "project"),
   ("work", "project")]

/-- The candidate scan of `_consistency_template_for_type` (`for key in
candidates: if key and key in CONSISTENCY_TEMPLATES: return ...`). -/
def consistency_candidate_lookup (candidates : List (Option String)) :
    Option TaskTemplate :=
  candidates.findSome? (fun key? =>
    match key? with
    | some key => if key ≠ "" then CONSISTENCY_TEMPLATES.lookup key else none
    | none => none)

/-- `_consistency_template_for_type`. -/
def consistency_template_for_type (resolutionType : Option String) : TaskTemplate :=
  let normalized := pyLower (orOptString resolutionType "")
  (consistency_candidate_lookup
    [some normalized, TYPE_DEFAULT_TEMPLATE.lookup normalized, some "learning"]).getD
    ⟨"Daily focused study",
     "Show up every day for a short, high-quality reading or study block.", 30,
     .dict { type? := some "daily", times := some ["evening"] },
     some "Log one takeaway after each session so the learning sticks."⟩

/-- `_build_consistency_task` (every consistency template carries a truthy
cadence dictionary, so `template.get("cadence") or default` is the template's
own cadence). -/
def build_consistency_task (resolutionType : Option String)
    (resolutionTitle : Option String) : Task :=
  let template := consistency_template_for_type resolutionType
  let focus := orOptString resolutionTitle "your goal"
  let noteText := template.note.getD "Track a tiny win."
  { title := some template.title
    intent := some template.intent
    estimated_duration_min := some template.duration
    cadence := template.cadence
    note := some s!"{noteText} ({focus})"
    confidence := some "medium" }

/-- The per-entry cleanup of the `_prepare_week_one_tasks` loop: setup tasks
get their duration capped at 20 and (unless the note already mentions "15") a
reminder appended.  `(note + " ").strip() + msg` in the source concatenates the
stripped note and the message with no separator. -/
def clean_week_one_entry (entry : Task) : Task :=
  if is_setup_task entry.title then
    let duration := task_duration entry
    let noteText := orOptString entry.note ""
    let entry := { entry with estimated_duration_min := some (min duration 20) }
    if strContains noteText "15" then entry
    else
      let newNote := pyStrip noteText ++ "Keep this under 15 minutes so energy goes to the main habit."
      { entry with note := some newNote }
  else entry

/-- `_prepare_week_one_tasks`.  The source computes the cleanup and the
consistency check in one pass; the cleanup never changes a task's cadence, so
the separated form below is the same function. -/
def prepare_week_one_tasks (tasks : List Task) (resolutionType : Option String)
    (resolutionTitle : Option String) (resolutionDomain : String) : List Task :=
  let normalized := tasks.map clean_week_one_entry
  let hasConsistency := tasks.any (fun t => cadence_supports_consistency t.cadence)
  if !hasConsistency && resolutionDomain ≠ "work" then
    normalized ++ [build_consistency_task resolutionType resolutionTitle]
  else normalized

/-! ## Milestone normalization (`_normalize_milestones`) -/

/-- `WEEKLY_FOCUS_FALLBACKS`. -/
def WEEKLY_FOCUS_FALLBACKS : List String :=
  ["Lay the foundation and remove obvious friction.",
   "Stabilize your routine with gentle repetitions.",
   "Increase deliberate practice reps while staying kind to yourself.",
   "Reflect, adjust, and celebrate the micro wins."]

/-- The per-entry normalization of `_normalize_milestones`: strip the focus
text (substituting a default when blank) and strip each success criterion. -/
def normalize_milestone_entry (entry : Milestone) : Milestone :=
  let wn := entry.week_number
  let focusText0 := pyStrip entry.focus_summary
  let focusText :=
    if focusText0 = "" then s!"Stay intentional during Week {wn}." else focusText0
  { week_number := wn, focus_summary := focusText,
    success_criteria := entry.success_criteria.map (fun item => pyStrip item) }

/-- The `max_weeks` computation of `_normalize_milestones`. -/
def normalize_milestones_max (milestones : List Milestone) (durationWeeks : Int)
    (targetWeeks : Option Int) : Int :=
  let maxWeeks0 : Int :=
    if truthyInt targetWeeks then targetWeeks.getD 0
    else if durationWeeks ≠ 0 then durationWeeks
    else if milestones.length ≠ 0 then (milestones.length : Int)
    else 4
  max 1 (min 12 maxWeeks0)

/-- The kept-entry normalization of `_normalize_milestones`, with the seen
week numbers; the default Week-1 milestone substitutes when nothing
survives.  Post validation a milestone entry carries only a `week_number`
key, so an entry is skipped exactly when its (falsy) week number is `0`. -/
def normalize_milestones_base (milestones : List Milestone) :
    List Milestone × List Int :=
  let kept := milestones.filter (fun m => m.week_number ≠ 0)
  let normalized := kept.map normalize_milestone_entry
  let seenWeeks := kept.map (fun m => m.week_number)
  if normalized.isEmpty then
    ([{ week_number := 1,
        focus_summary := "Lay the foundation with kind setup rituals.",
        success_criteria := ["Complete the environment prep task.",
                             "Log at least one gentle repetition."] }], [(1 : Int)])
  else (normalized, seenWeeks)

/-- The filler generator of `_normalize_milestones`: a fallback milestone for
each in-range week not already covered. -/
def milestone_filler (seen : List Int) (week : Int) : Option Milestone :=
  if seen.contains week then none
  else
    let idx := min (WEEKLY_FOCUS_FALLBACKS.length - 1) (week - 1).toNat
    some { week_number := week, focus_summary := WEEKLY_FOCUS_FALLBACKS.getD idx "",
           success_criteria := [] }

/-- `_normalize_milestones`: the normalized milestone list and the final
`max_weeks` (which the source also writes into `duration_weeks`). -/
def normalize_milestones (milestones : List Milestone) (durationWeeks : Int)
    (targetWeeks : Option Int) : List Milestone × Int :=
  let maxWeeks := normalize_milestones_max milestones durationWeeks targetWeeks
  let base := normalize_milestones_base milestones
  let fillers := ((List.range maxWeeks.toNat).map (fun (k : Nat) => ((k : Int) + 1))).filterMap
    (milestone_filler base.2)
  (stableSortBy (fun a b => decide (a.week_number ≤ b.week_number)) (base.1 ++ fillers),
   maxWeeks)

/-- `_post_process_plan`. -/
def post_process_plan (planDict : Plan) (resolutionType : Option String)
    (userContext : Option UserContext) (targetWeeks : Option Int)
    (resolutionDomain : String) (today : Nat) : Plan :=
  let normalizedWeekOne := prepare_week_one_tasks planDict.week_1_tasks resolutionType
    (some planDict.resolution_title) resolutionDomain
  let enrichedWeek1 := enrich_tasks_with_schedule normalizedWeekOne resolutionType
    userContext (resolutionDomain ≠ "work") today
  let nm := normalize_milestones planDict.milestones planDict.duration_weeks targetWeeks
  let milestones := nm.1
  let weekSections := milestones.map (fun milestone =>
    let weekNum := milestone.week_number
    let baseEntryTasks :=
      ((planDict.weeks.reverse.find? (fun e => e.week = weekNum)).map
        (fun e => e.tasks)).getD []
    ({ week := weekNum, focus := milestone.focus_summary,
       tasks := if weekNum = 1 then enrichedWeek1 else baseEntryTasks } : WeekSection))
  { planDict with
    week_1_tasks := enrichedWeek1
    milestones := milestones
    duration_weeks := nm.2
    weeks := weekSections }

/-! ## Availability enforcement (`_apply_availability_rules_to_plan`) -/

/-- Modelled from the spec: `availability_profile.py` is not among the provided
sources.  The spec (§6) gives the profile shape — work days (weekday codes),
work start/end times, peak-energy marker, strict work-mode flag — and the
default Monday-Friday 9-5 morning-peak profile assumed when absent.  Times are
minutes after midnight (the source stores "HH:MM" strings and converts with
`_time_str_to_minutes`). -/
structure AvailabilityProfile where
  work_days : List String := ["mon", "tue", "wed", "thu", "fri"]
  work_start : Nat := 540
  work_end : Nat := 1020
  peak_energy : String := "morning"
  work_mode_enabled : Bool := false
deriving Repr, DecidableEq

/-- Modelled from the spec: `sanitize_availability_profile` substitutes the
default profile when none is supplied. -/
def sanitize_availability_profile : Option AvailabilityProfile → AvailabilityProfile
  | some p => p
  | none => {}

/-- Modelled from the spec: `availability_day_to_weekday` maps a weekday code
to its index (Monday = 0); unknown codes yield `none`. -/
def availability_day_to_weekday (code : String) : Option Nat :=
  ([("mon", 0), ("tue", 1), ("wed", 2), ("thu", 3), ("fri", 4), ("sat", 5),
    ("sun", 6)] : List (String × Nat)).lookup (pyLower (pyStrip code))

/-- Modelled from the spec: `category_slot_preferences` returns a preferred
slot range and whether the category prefers weekends; no category exercised in
this development declares either, so the model returns neutral preferences. -/
def category_slot_preferences (_category : Option String)
    (_profile : AvailabilityProfile) : Option (Nat × Nat) × Bool :=
  (none, false)

/-- `_availability_day_indexes`. -/
def availability_day_indexes (days : Option (List String)) : List Nat :=
  let indexes := (days.getD []).foldl (fun acc code =>
    match availability_day_to_weekday code with
    | some w => acc ++ [w]
    | none => acc) []
  if indexes.isEmpty then [0, 1, 2, 3, 4] else indexes

/-- The 21-check loop of `_ensure_workday` (a failed scan returns the day the
loop advanced to). -/
def ensureWorkdayGo (allowedDays : List Nat) : Nat → Nat → Nat
  | day, 0 => day
  | day, fuel + 1 =>
    if allowedDays.contains (day % 7) then day
    else ensureWorkdayGo allowedDays (day + 1) fuel

/-- `_ensure_workday` (`today` is the `date.today()` anchor). -/
def ensure_workday (current : Option Nat) (allowedDays : List Nat) (today : Nat) : Nat :=
  ensureWorkdayGo allowedDays (current.getD today) 21

/-- `_shift_to_weekend`. -/
def shift_to_weekend (current : Option Nat) (today : Nat) : Nat :=
  let day := current.getD today
  if day % 7 ≥ 5 then day
  else
    let daysUntilSaturday := ((5 : Int) - ((day % 7 : Nat) : Int)).emod 7
    let daysUntilSaturday := if daysUntilSaturday = 0 then 5 else daysUntilSaturday
    day + daysUntilSaturday.toNat

/-- `_minutes_to_time` composed with `_time_str_to_minutes` round-trips to
`total % 1440` on the minute representation. -/
def minutes_to_time (m : Int) : Nat := (m % 1440).toNat

/-- Python `a or b` on optional canonical times (a canonical time renders as a
non-empty, hence truthy, string). -/
def pyOrOptNat (a b : Option Nat) : Option Nat :=
  match a with
  | some x => some x
  | none => b

/-- `_select_work_time`. -/
def select_work_time (existingTime : Option Nat) (profile : AvailabilityProfile)
    (preferMorning : Bool) : Nat :=
  let start : Int := profile.work_start
  let endT : Int := profile.work_end
  let endT := if endT ≤ start then start + 8 * 60 else endT
  let defaultMinutes := if preferMorning then start else max start (endT - 60)
  let desired : Int :=
    match existingTime with
    | some t => (t : Int)
    | none => defaultMinutes
  let desired := max start (min (endT - 15) desired)
  minutes_to_time desired

/-- `_select_personal_time`. -/
def select_personal_time (scheduledDay : Option Nat) (existingTime : Option Nat)
    (profile : AvailabilityProfile) (preferredRange : Option (Nat × Nat))
    (strictMode : Bool) (workWindow : Nat × Nat) : Nat :=
  let workStart : Int := workWindow.1
  let workEnd : Int := workWindow.2
  let isWeekend :=
    match scheduledDay with
    | some d => decide (d % 7 ≥ 5)
    | none => false
  let defaultMinutes : Int :=
    match preferredRange with
    | some r => (r.1 : Int)
    | none => if profile.peak_energy = "morning" then 7 * 60 else 19 * 60
  let desired : Int :=
    match existingTime with
    | some t => (t : Int)
    | none => defaultMinutes
  let desired :=
    if strictMode && !isWeekend && workStart ≤ desired && desired < workEnd then
      let d1 := min (22 * 60) (workEnd + 60)
      if 22 * 60 ≤ d1 then max (5 * 60) (workStart - 90) else d1
    else if !isWeekend && workStart ≤ desired && desired < workEnd then
      min (22 * 60) (workEnd + 60)
    else desired
  let desired := max (5 * 60) (min (22 * 60) desired)
  minutes_to_time desired

/-- `_enforce_task_against_availability`. -/
def enforce_task_against_availability (task : Task) (resolutionDomain : String)
    (resolutionCategory : Option String) (profile : AvailabilityProfile)
    (strictMode : Bool) (today : Nat) : Task :=
  let data := task
  let isoDay := pyOrIso data.scheduled_day data.suggested_day
  let scheduledDay0 := if truthyIso isoDay then parse_iso_date isoDay else none
  let workDays := availability_day_indexes (some profile.work_days)
  let slotPrefs := category_slot_preferences resolutionCategory profile
  let workWindow : Nat × Nat := (profile.work_start, profile.work_end)
  let result : Option Nat × Nat :=
    if resolutionDomain = "work" then
      let d := ensure_workday scheduledDay0 workDays today
      (some d,
       select_work_time (pyOrOptNat data.scheduled_time data.suggested_time) profile
         (profile.peak_energy = "morning"))
    else
      let d :=
        if slotPrefs.2 && (scheduledDay0.isNone || (scheduledDay0.getD 0) % 7 < 5) then
          some (shift_to_weekend scheduledDay0 today)
        else scheduledDay0
      (d,
       select_personal_time d (pyOrOptNat data.scheduled_time data.suggested_time) profile
         slotPrefs.1 strictMode workWindow)
  let newDay : Option IsoStr :=
    match result.1 with
    | some d => some (.valid d)
    | none => data.scheduled_day
  { data with
    scheduled_day := newDay
    suggested_day := newDay
    scheduled_time := some result.2
    suggested_time := some result.2 }

/-- `_apply_availability_rules_to_plan`. -/
def apply_availability_rules_to_plan (planDict : Plan) (resolutionDomain : String)
    (resolutionCategory : Option String)
    (availabilityProfile : Option AvailabilityProfile) (today : Nat) : Plan :=
  let profile := sanitize_availability_profile availabilityProfile
  let strictMode := profile.work_mode_enabled
  { planDict with
    week_1_tasks := planDict.week_1_tasks.map (fun t =>
      enforce_task_against_availability t resolutionDomain resolutionCategory profile
        strictMode today)
    weeks := planDict.weeks.map (fun sec =>
      { sec with tasks := sec.tasks.map (fun t =>
          enforce_task_against_availability t resolutionDomain resolutionCategory profile
            strictMode today) }) }

/-! ## Finalization -/

/-- `_public_task_data`. -/
def public_task_data (task : Task) : Task :=
  let cadenceStruct : Option CadenceDict :=
    match task.cadence_struct with
    | some d => some d
    | none =>
      match task.cadence with
      | .dict c => some c
      | _ => none
  match cadenceStruct with
  | some c => { task with cadence := .str (stringify_cadence c), cadence_struct := none }
  | none => { task with cadence_struct := none }

/-- `_finalize_plan`. -/
def finalize_plan (planDict : Plan) (evaluation : EvaluationResult) (bandLabel : String)
    (bandRationale : String) (repairUsed regenerateUsed fallbackUsed : Bool) : Plan :=
  { planDict with
    band := bandLabel
    band_rationale := bandRationale
    evaluation_summary := some
      { score := evaluation.score
        band := evaluation.band
        passed := evaluation.passed
        weekly_minutes_week1 := (evaluation.weekly_minutes.head?).getD 0
        budget_violations_count := evaluation.budget_violations.length
        overload_warnings_count := evaluation.overload_warnings.length
        vagueness_flags := evaluation.vagueness_flags.take 3
        cadence_issues := evaluation.cadence_issues.take 3
        repair_used := repairUsed
        regenerate_used := regenerateUsed
        fallback_used := fallbackUsed }
    week_1_tasks := planDict.week_1_tasks.map public_task_data
    weeks := planDict.weeks.map (fun s => { s with tasks := s.tasks.map public_task_data }) }

/-! ## Specialty templates and the fallback plan (`_fallback_plan`) -/

/-- One `SPECIALTY_CONFIG` entry, over the keys read outside prompt
construction (`prompt_hint` feeds only the LLM prompt and is omitted). -/
structure SpecialtyConfig where
  types : Option (List String) := none
  keywords : Option (List String) := none
  tasks : List TaskTemplate := []
deriving Repr, DecidableEq

/-- `SPECIALTY_CONFIG`, in source (insertion) order. -/
def SPECIALTY_CONFIG : List (String × SpecialtyConfig) :=
  [("music_skill",
    { types := some ["skill", "learning"]
      keywords := some ["music", "guitar", "piano", "violin", "cello", "drum",
                        "vocal", "sing", "song"]
      tasks :=
        [⟨"Stage instrument and tuner",
          "Make practice frictionless by prepping the instrument corner and tuner.", 10,
          .str "flex",
          some "Lay out instrument, tuner, metronome app, and current sheet music."⟩,
         ⟨"Chromatic scale warm-up (C to C)",
          "Rebuild finger agility and tone before diving into repertoire.", 20,
          .dict { type? := some "specific_days",
                  days := some ["monday", "wednesday", "friday"],
                  times := some ["evening"] },
          some "Metronome 70 BPM, 3 passes legato + 3 passes staccato while focusing on even tone."⟩,
         ⟨"Chord progression loop (I-IV-V)",
          "Lock in smooth transitions at a sustainable tempo.", 25,
          .dict { type? := some "x_per_week", count := some 3, times := some ["evening"] },
          some "Loop the progression for 15 minutes, record a take, jot one insight about tension/release."⟩] }),
   ("fitness",
    { types := some ["health", "fitness", "habit"]
      keywords := some ["run", "running", "cardio", "workout", "gym", "yoga",
                        "strength", "training"]
      tasks :=
        [⟨"Stage gym gear + tracker",
          "Remove friction by prepping outfit, shoes, and your logging tool.", 10,
          .str "one_time",
          some "Keep this under 10 minutes so energy goes to the workouts."⟩,
         ⟨"3x(2 min run / 1 min walk)",
          "Build aerobic base via structured intervals; log effort 1-10 after each session.", 30,
          .dict { type? := some "x_per_week", count := some 3, times := some ["morning"] },
          some "Stay conversational pace and jot one line about energy post-run."⟩,
         ⟨"Full-body strength circuit",
          "Alternate squats, pushups, and rows to build strength.", 30,
          .dict { type? := some "x_per_week", count := some 2, times := some ["morning"] },
          some "Example: 3 rounds of 12 squats, 10 pushups, 12 rows with 60 sec rest."⟩,
         ⟨"Mobility + core flow",
          "Encourage recovery with mobility work and light core activation.", 15,
          .dict { type? := some "x_per_week", count := some 2, times := some ["morning"] },
          some "10 min mobility (90/90, cat-cow) + 5 min plank / dead bug variations."⟩] }),
   ("habit",
    { types := some ["habit"]
      keywords := some ["routine", "mindful", "journal", "sleep", "morning", "evening"]
      tasks :=
        [⟨"Design habit trigger + environment",
          "Pair the habit with a reliable cue so it happens automatically.", 10,
          .str "flex",
          some "Decide the cue (e.g., after brushing teeth) and stage supplies where the cue happens."⟩,
         ⟨"Two-minute starter rep",
          "Shrink the habit so starting feels effortless.", 5,
          .dict { type? := some "daily", times := some ["morning"] },
          some "Run a 2-minute version of the habit daily to prove it fits (timer on phone)."⟩,
         ⟨"Evening reflection note",
          "Capture one line about how the habit felt to reinforce identity.", 5,
          .dict { type? := some "daily", times := some ["evening"] },
          some "Log a quick win or friction point in Notes before bed."⟩] }),
   ("project",
    { types := some ["project", "work"]
      keywords := some ["project", "launch", "deck", "presentation", "website", "build"]
      tasks :=
        [⟨"Reset workspace + capture blockers",
          "Clear physical and digital distractions before execution.", 15,
          .str "flex",
          some "Archive stale tabs, dump blockers into a scratchpad, and reopen the project doc."⟩,
         ⟨"Draft outline for \x7bgoal_focus\x7d",
          "Define the structure of the week’s deliverable before filling details.", 30,
          .dict { type? := some "x_per_week", count := some 2, times := some ["morning"] },
          some "Sketch bullet outline with intro/sections/outro; mark unknowns for follow-up."⟩,
         ⟨"Ship micro-deliverable + summary",
          "Finish a tangible slice and log what changed.", 30,
          .dict { type? := some "x_per_week", count := some 2, times := some ["evening"] },
          some "Complete one section or ticket, then send a 3-bullet summary/report in your tracker."⟩] }),
   ("skill_generic",
    { types := some ["skill", "learning"]
      tasks :=
        [⟨"Stage study/practice zone",
          "Remove friction by prepping tools, notes, and focus playlist.", 10,
          .str "flex",
          some "Close irrelevant tabs, gather materials, and set a 30-minute timer."⟩,
         ⟨"Deliberate practice block: hardest subskill",
          "Attack the most intimidating part of \x7bgoal_focus\x7d with intention.", 25,
          .dict { type? := some "x_per_week", count := some 3, times := some ["evening"] },
          some "Pick one micro-skill, run a 20-minute drill, and log accuracy or speed."⟩,
         ⟨"Reflection + adjustments",
          "Integrate lessons so the next session improves.", 10,
          .dict { type? := some "specific_days", days := some ["sunday"],
                  times := some ["evening"] },
          some "Write 3 bullets: what worked, what needs help, what to try next."⟩] }),
   ("generic",
    { tasks :=
        [⟨"Clarify outcome + definition of done",
          "Write down what success looks like so every task aligns.", 15,
          .str "flex",
          some "List 2-3 objective signals that prove \x7bgoal_focus\x7d progressed."⟩,
         ⟨"Protect one focus block",
          "Schedule time on the calendar dedicated to the goal.", 25,
          .dict { type? := some "x_per_week", count := some 3, times := some ["morning"] },
          some "Block a 25-minute session and silence notifications."⟩,
         ⟨"Capture insights + next micro-step",
          "End Week 1 with clarity on what to adjust.", 10,
          .dict { type? := some "specific_days", days := some ["sunday"],
                  times := some ["evening"] },
          some "Log one win, one friction, and the smallest next action."⟩] })]

/-- `_detect_specialty_key`. -/
def detect_specialty_key (userInput : Option String) (resolutionType : Option String) :
    String :=
  let text := pyLower (orOptString userInput "")
  let normalizedType := pyLower (orOptString resolutionType "")
  match SPECIALTY_CONFIG.find? (fun kv =>
    (match kv.2.keywords with
     | some kws => kws.any (fun kw => strContains text kw)
     | none => false) &&
    (match kv.2.types with
     | some tys => normalizedType = "" || tys.contains normalizedType
     | none => true)) with
  | some kv => kv.1
  | none => (TYPE_DEFAULT_TEMPLATE.lookup normalizedType).getD "generic"

/-- `SPECIALTY_CONFIG.get(key, SPECIALTY_CONFIG["generic"])`. -/
def specialty_config_for (key : String) : SpecialtyConfig :=
  (SPECIALTY_CONFIG.lookup key).getD ((SPECIALTY_CONFIG.lookup "generic").getD {})

/-- `_goal_focus_phrase`. -/
def goal_focus_phrase (userInput : Option String) : String :=
  match userInput with
  | none => "your goal"
  | some s =>
    let cleaned := pyStrip s
    if cleaned = "" then "your goal"
    else
      let tokens := pySplitWs (strReplace cleaned "\n" " ")
      let snippet := pyStrip (strIntercalate " " (tokens.take 6))
      orString snippet "your goal"

/-- `_format_template_text` (`str.format` fills every `\x7bgoal_focus\x7d`
placeholder; the templates are well formed, so the `except` path is dead). -/
def format_template_text (value : Option String) (goalFocus : String) : Option String :=
  match value with
  | none => none
  | some v => some (strReplace v "\x7bgoal_focus\x7d" goalFocus)

/-- `_default_duration`. -/
def default_duration (resolutionType : Option String) : Int :=
  let normalized := pyLower (orOptString resolutionType "")
  if ["habit", "skill", "learning"].contains normalized then 30
  else if ["health", "fitness"].contains normalized then 25
  else if ["project", "work"].contains normalized then 45
  else 30

/-- `_default_cadence`. -/
def default_cadence (resolutionType : Option String) : String :=
  let normalized := pyLower (orOptString resolutionType "")
  if ["habit", "skill", "learning"].contains normalized then "daily performance windows"
  else if ["health", "fitness"].contains normalized then "5x weekly mornings"
  else "3-4x weekly focus blocks"

/-- The fixed week-focus templates of `_fallback_plan`. -/
def FALLBACK_FOCUS_TEMPLATES : List String :=
  ["Ground yourself and set a compassionate baseline.",
   "Design tiny rituals that keep momentum alive.",
   "Practice the core habit consistently with checkpoints.",
   "Review progress and celebrate micro wins."]

/-- The fixed success-criteria templates of `_fallback_plan`. -/
def FALLBACK_SUCCESS_TEMPLATES : List (List String) :=
  [["Complete the environment setup so starting feels easy.",
    "Log at least one gentle repetition to prove momentum."],
   ["Show up for two short intentional sessions.",
    "Capture one reflection about friction or ease."],
   ["Hit the planned cadence without exceeding the effort band.",
    "Note one lesson that will make Week 4 lighter."],
   ["Review progress and archive wins in your journal.",
    "Decide on one celebratory action or reset ritual."]]

/-- The milestone built by `_fallback_plan` for week index `k` (week
`k + 1`). -/
def fallback_milestone (goalFocus : String) (k : Nat) : Milestone :=
  let week := k + 1
  let focus := FALLBACK_FOCUS_TEMPLATES.getD
    (min (week - 1) (FALLBACK_FOCUS_TEMPLATES.length - 1)) ""
  let criteria := FALLBACK_SUCCESS_TEMPLATES.getD
    (min (week - 1) (FALLBACK_SUCCESS_TEMPLATES.length - 1)) []
  { week_number := (week : Int),
    focus_summary := s!"{focus} (Week {week})",
    success_criteria :=
      criteria.map (fun item => (format_template_text (some item) goalFocus).getD item) }

/-- The specialty task templates used by `_fallback_plan` (the generic set
substitutes when the detected specialty declares none). -/
def fallback_task_templates (userInput : String) (resolutionType : Option String) :
    List TaskTemplate :=
  let specialtyKey := detect_specialty_key (some userInput) resolutionType
  let specialtyConfig := specialty_config_for specialtyKey
  if specialtyConfig.tasks.isEmpty then
    ((SPECIALTY_CONFIG.lookup "generic").getD {}).tasks
  else specialtyConfig.tasks

/-- The week-1 task built by `_fallback_plan` from one template. -/
def fallback_task_from_template (resolutionType : Option String) (goalFocus : String)
    (template : TaskTemplate) : Task :=
  let dur : Int :=
    if template.duration ≠ 0 then template.duration else default_duration resolutionType
  { title := some ((format_template_text (some template.title) goalFocus).getD "")
    intent := some ((format_template_text (some template.intent) goalFocus).getD "")
    estimated_duration_min := some dur
    cadence := template.cadence
    note := format_template_text template.note goalFocus
    confidence := some "medium" }

/-- `_fallback_plan` (the `refined_goal` argument is unused in the source
body). -/
def fallback_plan (userInput : String) (durationWeeks : Int)
    (resolutionType : Option String) (_resolutionCategory : Option String)
    (userContext : Option UserContext) (band : String) (bandRationale : String)
    (_refinedGoal : RefinedGoal) (today : Nat) : Plan :=
  let title := orString (pyStrip userInput) "Sarthi AI Goal"
  let weeks : Int := max 4 (min 12 (if durationWeeks ≠ 0 then durationWeeks else 8))
  let taskTemplates := fallback_task_templates userInput resolutionType
  let goalFocus := goal_focus_phrase (some userInput)
  let milestones := (List.range weeks.toNat).map (fallback_milestone goalFocus)
  let weekTasksRaw : List Task :=
    taskTemplates.map (fallback_task_from_template resolutionType goalFocus)
  let enrichedTasks0 :=
    enrich_tasks_with_schedule weekTasksRaw resolutionType userContext false today
  let enrichedTasks :=
    if enrichedTasks0.length > 4 then enrichedTasks0.take 4 else enrichedTasks0
  let weekSections := milestones.map (fun m =>
    let wn := m.week_number
    ({ week := wn, focus := m.focus_summary,
       tasks := if wn = 1 then enrichedTasks.map public_task_data else [] } :
      WeekSection))
  { resolution_title := if title.length < 120 then title else (strTake title 117) ++ "..."
    why_this_matters := "Sarthi AI reminder: name the emotional stake so motivation feels grounded."
    duration_weeks := weeks
    milestones := milestones
    week_1_tasks := enrichedTasks.map public_task_data
    weeks := weekSections
    band := band
    band_rationale := bandRationale
    evaluation_summary := none }

/-! ## The generation state machine (`decompose_resolution_with_llm`) -/

/-- All arguments of `decompose_resolution_with_llm`.  The `title` field in the
source signature is spread over the same names. -/
structure DecomposeArgs where
  userInput : String := ""
  durationWeeks : Int := 8
  resolutionType : Option String := none
  resolutionCategory : Option String := none
  userContext : Option UserContext := none
  effortBand : Option String := none
  bandRationale : Option String := none
  resolutionDomain : Option String := none
  availabilityProfile : Option AvailabilityProfile := none
deriving Repr, DecidableEq

/-- The external Plan Proposer, as one behavior per request: the outcome of
the propose, repair and regenerate calls.  `Except.error ()` stands for any
exception — a transport failure, a timeout, or output that fails the
`ResolutionPlan` schema validation; `Except.ok` carries the validated plan.
`hasClient` is whether an API key is configured. -/
structure ProposerBehavior where
  hasClient : Bool := true
  propose : Except Unit Plan := .error ()
  repair : Except Unit Plan := .error ()
  regenerate : Except Unit Plan := .error ()
deriving Repr

/-- The `ResolutionPlan` schema constraints (Pydantic `Field` bounds) a
proposer output must satisfy before it is accepted as validated: at least one
milestone and at most 12, milestone `week_number` in [1, 12], at least one
week-1 task, `duration_weeks` in [1, 12].  A plan carried by `Except.ok`
models a payload that passed this validation. -/
def schema_valid (p : Plan) : Bool :=
  !p.milestones.isEmpty && p.milestones.length ≤ 12 &&
    p.milestones.all (fun m => 1 ≤ m.week_number && m.week_number ≤ 12) &&
    !p.week_1_tasks.isEmpty && 1 ≤ p.duration_weeks && p.duration_weeks ≤ 12

/-- The request-derived values computed once at the top of
`decompose_resolution_with_llm`.  (The `planning_context.setdefault` writes add
keys the scheduler never reads back and are dropped.) -/
structure DecomposeConfig where
  sanitizedWeeks : Int
  bandLabel : String
  bandRationale : String
  domainLabel : String
  availability : AvailabilityProfile
  refinedGoal : RefinedGoal
  planningContext : Option UserContext
  category : Option String
  userInput : String
  resolutionType : Option String
deriving Repr, DecidableEq

/-- The prologue of `decompose_resolution_with_llm`. -/
def mk_decompose_config (args : DecomposeArgs) : DecomposeConfig :=
  { sanitizedWeeks := max 4 (min 12 args.durationWeeks)
    bandLabel := orOptString args.effortBand "medium"
    bandRationale := orOptString args.bandRationale "Defaulted effort band."
    domainLabel := pyLower (orOptString args.resolutionDomain "personal")
    availability := sanitize_availability_profile args.availabilityProfile
    refinedGoal := refine_resolution_goal args.userInput args.resolutionType
    planningContext := args.userContext
    category := args.resolutionCategory
    userInput := args.userInput
    resolutionType := args.resolutionType }

/-- Post-process, availability-apply and evaluate one validated proposer plan
(the common body of `_generate_plan_via_llm` / `_repair_plan_via_llm`
successes, followed by the caller's availability pass and evaluation). -/
def run_candidate (cfg : DecomposeConfig) (raw : Plan) (today : Nat) :
    Plan × EvaluationResult :=
  let p := post_process_plan raw cfg.resolutionType cfg.planningContext
    (some cfg.sanitizedWeeks) cfg.domainLabel today
  let p := apply_availability_rules_to_plan p cfg.domainLabel cfg.category
    (some cfg.availability) today
  (p, evaluate_plan p cfg.bandLabel cfg.resolutionType cfg.refinedGoal)

/-- Build, availability-apply and evaluate the fallback plan (both fallback
call sites of the state machine have this shape). -/
def run_fallback (cfg : DecomposeConfig) (today : Nat) : Plan × EvaluationResult :=
  let p := fallback_plan cfg.userInput cfg.sanitizedWeeks cfg.resolutionType
    cfg.category cfg.planningContext cfg.bandLabel cfg.bandRationale cfg.refinedGoal today
  let p := apply_availability_rules_to_plan p cfg.domainLabel cfg.category
    (some cfg.availability) today
  (p, evaluate_plan p cfg.bandLabel cfg.resolutionType cfg.refinedGoal)

/-- `repair_used`: the condition on which the repair transition fires (the
metric flag is set at the same point in the source). -/
def repair_used_flag (cfg : DecomposeConfig) (raw : Plan) (today : Nat) : Bool :=
  let s1 := run_candidate cfg raw today
  !s1.2.passed && s1.2.repair_instructions ≠ ""

/-- The candidate state after the (optional) repair transition, paired with
the number of proposer calls made so far.  A repair exception is caught in
`_repair_plan_via_llm` and returns `None`, which leaves the previous candidate
and its evaluation in place. -/
def repair_stage (cfg : DecomposeConfig) (behavior : ProposerBehavior) (raw : Plan)
    (today : Nat) : (Plan × EvaluationResult) × Nat :=
  let s1 := run_candidate cfg raw today
  if repair_used_flag cfg raw today then
    match behavior.repair with
    | .ok r => (run_candidate cfg r today, 2)
    | .error _ => (s1, 2)
  else (s1, 1)

/-- `regenerate_used`: the regenerate transition fires when the current
candidate still fails (a client exists on this path). -/
def regen_used_flag (cfg : DecomposeConfig) (behavior : ProposerBehavior) (raw : Plan)
    (today : Nat) : Bool :=
  !(repair_stage cfg behavior raw today).1.2.passed

/-- The candidate state after the (optional) regenerate transition.  A
regenerate exception is caught in `_regenerate_plan_with_feedback` and returns
`None`. -/
def regen_stage (cfg : DecomposeConfig) (behavior : ProposerBehavior) (raw : Plan)
    (today : Nat) : (Plan × EvaluationResult) × Nat :=
  let s2 := repair_stage cfg behavior raw today
  if regen_used_flag cfg behavior raw today then
    match behavior.regenerate with
    | .ok r => (run_candidate cfg r today, s2.2 + 1)
    | .error _ => (s2.1, s2.2 + 1)
  else s2

/-- `decompose_resolution_with_llm`, paired with the number of proposer calls
attempted (ghost instrumentation; the source emits metrics instead).  The
initial propose call is not guarded in the source — `_generate_plan_via_llm`
has no `try`/`except` — so its exception propagates to the caller; the repair
and regenerate wrappers catch everything. -/
def decompose_resolution_with_llm (args : DecomposeArgs)
    (behavior : ProposerBehavior) (today : Nat) : Except Unit Plan × Nat :=
  let cfg := mk_decompose_config args
  if !behavior.hasClient then
    let fb := run_fallback cfg today
    (.ok (finalize_plan fb.1 fb.2 cfg.bandLabel cfg.bandRationale false false true), 0)
  else
    match behavior.propose with
    | .error e => (.error e, 1)
    | .ok raw =>
      let s3 := regen_stage cfg behavior raw today
      let fallbackUsed := !s3.1.2.passed
      let s4 := if fallbackUsed then run_fallback cfg today else s3.1
      (.ok (finalize_plan s4.1 s4.2 cfg.bandLabel cfg.bandRationale
        (repair_used_flag cfg raw today) (regen_used_flag cfg behavior raw today)
        fallbackUsed), s3.2)

/-! ## Concrete instances used by the theorems -/

/-- A concrete plan-returning helper: the plan held by a decompose result. -/
def decomposedPlan? (r : Except Unit Plan × Nat) : Option Plan :=
  match r.1 with
  | .ok p => some p
  | .error _ => none

/-- A 60-minute week-1 task pinned to a concrete day. -/
def demoBudgetTask (d : Nat) : Task :=
  { title := some "Steady pace run block"
    intent := some "Build the aerobic base."
    estimated_duration_min := some 60
    cadence := .str "once"
    scheduled_day := some (.valid d) }

/-- Seven 60-minute tasks on seven distinct days: 420 weekly minutes, one
budget violation against the medium cap (420 > 360) and no other flags. -/
def demoOneViolationPlan : Plan :=
  { weeks := [{ week := 1, tasks := (List.range 7).map demoBudgetTask }] }

/-- The same overloaded week twice: two budget violations. -/
def demoTwoViolationPlan : Plan :=
  { weeks := [{ week := 1, tasks := (List.range 7).map demoBudgetTask },
              { week := 2, tasks := (List.range 7).map demoBudgetTask }] }

/-- A 30-minute (heavy) one-off task. -/
def demoHeavyTask : Task :=
  { title := some "Strength block reps today"
    intent := some "Stay strong."
    estimated_duration_min := some 30
    cadence := .str "once" }

/-- A user context restricting scheduling to Mondays. -/
def demoMondayContext : UserContext := { preferred_days := some ["monday"] }

/-- A 90-minute (long) one-off task. -/
def demoLongTask : Task :=
  { title := some "Long interval run session"
    intent := some "Push the distance."
    estimated_duration_min := some 90
    cadence := .str "once" }

/-- A small daily week-1 task that passes every evaluator check. -/
def demoDailyTask : Task :=
  { title := some "Ten minute breathing drill"
    intent := some "Calm the mind before the day begins."
    estimated_duration_min := some 10
    cadence := .dict { type? := some "daily" } }

/-- A validated proposer plan with a duplicated week-1 milestone. -/
def demoDupMilestonePlan : Plan :=
  { resolution_title := "Improve my focus"
    why_this_matters := "Focus compounds."
    duration_weeks := 4
    milestones := [{ week_number := 1, focus_summary := "Build the base" },
                   { week_number := 1, focus_summary := "Build the base again" },
                   { week_number := 2, focus_summary := "Keep going" },
                   { week_number := 3, focus_summary := "Deepen" },
                   { week_number := 4, focus_summary := "Review" }]
    week_1_tasks := [demoDailyTask] }

/-- A proposer plan with one absurdly long task: fails evaluation (budget and
overload), and repair instructions are non-empty. -/
def demoFailingPlan : Plan :=
  { resolution_title := "Overdo it"
    why_this_matters := "Too much."
    duration_weeks := 4
    milestones := [{ week_number := 1, focus_summary := "Go" }]
    week_1_tasks := [{ title := some "Marathon mega session block"
                       intent := some "Do everything at once."
                       estimated_duration_min := some 1000
                       cadence := .str "once" }] }

/-- Concrete request arguments shared by the state-machine instances. -/
def demoArgs : DecomposeArgs := { userInput := "Improve my focus", durationWeeks := 4 }

/-- The spec's reading of `x_per_week` expansion (§4.5): clamp the count to
[1, 7], then take offsets `round(i * 7/count)` clamped to day 6 for
`i = 0..count-1`, deduplicated (and sorted, as the source sorts the day
set). -/
def spec_x_per_week_days (count : Int) (weekStart : Nat) : List Nat :=
  let c : Nat := (max 1 (min count 7)).toNat
  dedupSort ((List.range c).map (fun i => weekStart + min 6 (roundHalfEvenDiv (7 * i) c)))

end FlowBuddy

namespace FlowBuddy

/-! ## Supporting lemmas -/

theorem coerce_positive_int_pos {c : Option Int} {n : Int}
    (h : coerce_positive_int c = some n) : 0 < n := by
  cases c with
  | none => simp [coerce_positive_int] at h
  | some m =>
    by_cases hm : 0 < m
    · simp [coerce_positive_int, hm] at h
      omega
    · simp [coerce_positive_int, hm] at h

theorem countOrDefault_pos {c : Option Int} {k n : Int}
    (hc : ∀ m, c = some m → 0 < m) (hk : 0 < k)
    (h : countOrDefault c k = some n) : 0 < n := by
  unfold countOrDefault at h
  by_cases ht : truthyInt c
  · rw [if_pos ht] at h
    exact hc n h
  · rw [if_neg ht] at h
    cases h
    exact hk

theorem cadence_synonym_step_pos {ct : String} {c : Option Int} {n : Int}
    (hc : ∀ m, c = some m → 0 < m)
    (h : (cadence_synonym_step ct c).2 = some n) : 0 < n := by
  unfold cadence_synonym_step at h
  split at h
  · exact countOrDefault_pos hc (by norm_num) h
  · split at h
    · exact countOrDefault_pos hc (by norm_num) h
    · split at h
      · exact countOrDefault_pos hc (by norm_num) h
      · split at h
        · exact countOrDefault_pos hc (by norm_num) h
        · exact hc n h

/-! ## C6 -/

/-- C6: the claim as stated is false — normalization never clamps the count to
7.  The structured cadence `{type: "x_per_week", count: 9}` normalizes to a
canonical structure whose count is 9, which exceeds 7. -/
theorem c6_counterexample_count_nine_survives :
    (normalize_cadence_struct { type? := some "x_per_week", count := some 9 }).count =
        some 9 ∧
      ¬((9 : Int) ≤ 7) := by
  exact ⟨by decide, by decide⟩

/-- C6 (amended): whenever normalization itself assigns a count — the raw
`count`/`times_per_week` coerces to a positive integer, or a synonym supplies
a default — the canonical count is a positive integer; no upper bound of 7 is
enforced here (the [1,7] clamp happens later, at cadence expansion), and when
no positive count can be derived the raw count value is left unchanged. -/
theorem c6_normalize_count_positive_or_unchanged (struct : CadenceDict) :
    (normalize_cadence_struct struct).count = struct.count ∨
      ∃ n : Int, (normalize_cadence_struct struct).count = some n ∧ 0 < n := by
  unfold normalize_cadence_struct
  set ct0 := pyLower (orOptString struct.type? (orOptString struct.cadence? "")) with hct0
  set c0 := coerce_positive_int (pyOrInt struct.count struct.times_per_week) with hc0
  have hpos : ∀ m, c0 = some m → 0 < m := fun m hm => coerce_positive_int_pos (hc0 ▸ hm)
  by_cases ht : truthyInt (cadence_synonym_step ct0 c0).2
  · right
    rcases hs : (cadence_synonym_step ct0 c0).2 with _ | n
    · rw [hs] at ht
      simp [truthyInt] at ht
    · refine ⟨n, ?_, cadence_synonym_step_pos hpos hs⟩
      show (if truthyInt (cadence_synonym_step ct0 c0).2 then (cadence_synonym_step ct0 c0).2
            else struct.count) = some n
      rw [if_pos ht, hs]
  · left
    show (if truthyInt (cadence_synonym_step ct0 c0).2 then (cadence_synonym_step ct0 c0).2
          else struct.count) = struct.count
    rw [if_neg ht]

/-! ## C9 -/

theorem findFreeFrom_spec (baseTime : Nat) (used : List Nat) :
    ∀ (fuel offset : Nat),
      (∃ k, k < fuel ∧ (∀ j, j < k → ((baseTime + (offset + j) * 30) % 1440) ∈ used) ∧
        ((baseTime + (offset + k) * 30) % 1440) ∉ used ∧
        (findFreeFrom baseTime used offset fuel).1 = (baseTime + (offset + k) * 30) % 1440) ∨
      ((∀ k, k < fuel → ((baseTime + (offset + k) * 30) % 1440) ∈ used) ∧
        (findFreeFrom baseTime used offset fuel).1 = baseTime) := by
  intro fuel
  induction fuel with
  | zero =>
    intro offset
    right
    exact ⟨fun k hk => absurd hk (Nat.not_lt_zero k), rfl⟩
  | succ n ih =>
    intro offset
    by_cases hmem : ((baseTime + offset * 30) % 1440) ∈ used
    · have hstep : (findFreeFrom baseTime used offset (n + 1)).1 =
          (findFreeFrom baseTime used (offset + 1) n).1 := by
        simp only [findFreeFrom]
        rw [if_pos hmem]
      rcases ih (offset + 1) with ⟨k, hk, hall, hnot, heq⟩ | ⟨hall, heq⟩
      · left
        refine ⟨k + 1, by omega, ?_, ?_, ?_⟩
        · intro j hj
          rcases Nat.eq_zero_or_pos j with hj0 | hj0
          · subst hj0
            simpa using hmem
          · have hrw : offset + j = offset + 1 + (j - 1) := by omega
            rw [hrw]
            exact hall (j - 1) (by omega)
        · have hrw : offset + (k + 1) = offset + 1 + k := by omega
          rw [hrw]
          exact hnot
        · have hrw : offset + (k + 1) = offset + 1 + k := by omega
          rw [hstep, heq, hrw]
      · right
        refine ⟨?_, by rw [hstep, heq]⟩
        intro k hk
        rcases Nat.eq_zero_or_pos k with hk0 | hk0
        · subst hk0
          simpa using hmem
        · have hrw : offset + k = offset + 1 + (k - 1) := by omega
          rw [hrw]
          exact hall (k - 1) (by omega)
    · left
      refine ⟨0, by omega, fun j hj => absurd hj (Nat.not_lt_zero j), by simpa using hmem, ?_⟩
      simp only [findFreeFrom]
      rw [if_neg hmem]
      simp

/-- C9: the time-slot search tries up to 5 candidates in 30-minute increments
starting from the default time, assigns the first candidate not already used
that day, and when all 5 collide it force-assigns the original default — it
always returns a time (the task is never left unscheduled). -/
theorem c9_find_free_time_slot_five_candidates_then_force
    (baseTime : Nat) (used : List Nat) :
    (∃ k, k < 5 ∧ (∀ j, j < k → ((baseTime + j * 30) % 1440) ∈ used) ∧
      ((baseTime + k * 30) % 1440) ∉ used ∧
      (find_free_time_slot baseTime used).1 = (baseTime + k * 30) % 1440) ∨
    ((∀ k, k < 5 → ((baseTime + k * 30) % 1440) ∈ used) ∧
      (find_free_time_slot baseTime used).1 = baseTime) := by
  have h := findFreeFrom_spec baseTime used 5 0
  simpa [find_free_time_slot] using h

/-! ## C1 -/

theorem decompose_eq_of_no_client (args : DecomposeArgs) (behavior : ProposerBehavior)
    (today : Nat) (h : behavior.hasClient = false) :
    decompose_resolution_with_llm args behavior today =
      (.ok (finalize_plan (run_fallback (mk_decompose_config args) today).1
        (run_fallback (mk_decompose_config args) today).2
        (mk_decompose_config args).bandLabel (mk_decompose_config args).bandRationale
        false false true), 0) := by
  unfold decompose_resolution_with_llm
  rw [h]
  rfl

theorem decompose_eq_of_propose_ok (args : DecomposeArgs) (behavior : ProposerBehavior)
    (today : Nat) (raw : Plan) (hc : behavior.hasClient = true)
    (hp : behavior.propose = .ok raw) :
    decompose_resolution_with_llm args behavior today =
      (.ok (finalize_plan
        (if !(regen_stage (mk_decompose_config args) behavior raw today).1.2.passed then
          run_fallback (mk_decompose_config args) today
         else (regen_stage (mk_decompose_config args) behavior raw today).1).1
        (if !(regen_stage (mk_decompose_config args) behavior raw today).1.2.passed then
          run_fallback (mk_decompose_config args) today
         else (regen_stage (mk_decompose_config args) behavior raw today).1).2
        (mk_decompose_config args).bandLabel (mk_decompose_config args).bandRationale
        (repair_used_flag (mk_decompose_config args) raw today)
        (regen_used_flag (mk_decompose_config args) behavior raw today)
        (!(regen_stage (mk_decompose_config args) behavior raw today).1.2.passed)),
       (regen_stage (mk_decompose_config args) behavior raw today).2) := by
  unfold decompose_resolution_with_llm
  rw [hc, hp]
  rfl

/-- C1: the claim as stated is false — an exception raised by the initial
propose call is not caught anywhere in `decompose_resolution_with_llm`
(`_generate_plan_via_llm` has no `try`/`except`), so it propagates to the
caller instead of routing to repair/regenerate/fallback. -/
theorem c1_counterexample_propose_exception_propagates :
    (decompose_resolution_with_llm demoArgs
      { hasClient := true, propose := .error () } 0).1 = .error () := rfl

/-- C1 (amended): failing repair and regenerate calls are absorbed (their
wrappers catch every exception) and the machine always returns a finalized
plan when no client is configured or when the propose call itself returns;
only an exception in the initial propose call escapes to the caller. -/
theorem c1_amended_only_propose_failures_propagate (args : DecomposeArgs)
    (behavior : ProposerBehavior) (today : Nat) :
    (behavior.hasClient = false →
      ∃ p, (decompose_resolution_with_llm args behavior today).1 = .ok p) ∧
    (∀ raw, behavior.propose = .ok raw →
      ∃ p, (decompose_resolution_with_llm args behavior today).1 = .ok p) := by
  constructor
  · intro h
    exact ⟨_, by rw [decompose_eq_of_no_client args behavior today h]⟩
  · intro raw hraw
    by_cases hc : behavior.hasClient
    · exact ⟨_, by rw [decompose_eq_of_propose_ok args behavior today raw hc hraw]⟩
    · exact ⟨_, by rw [decompose_eq_of_no_client args behavior today (by simpa using hc)]⟩

theorem c1_amended_witness :
    ∃ p, (decompose_resolution_with_llm demoArgs { hasClient := false } 0).1 = .ok p :=
  (c1_amended_only_propose_failures_propagate demoArgs { hasClient := false } 0).1 rfl

/-! ## C3 -/

/-- C3: for every candidate plan the evaluator's score equals
`max (100 - 30·budget - 5·vagueness - 5·cadence - 15·overload) 0` over its own
flag counts, and the plan passes iff there are zero budget violations with
score ≥ 50 or exactly one with score ≥ 60; in particular a plan with one
budget violation and no other flags scores 70 and passes, and a plan with two
budget violations and no other flags scores 40 and fails. -/
theorem c3_evaluator_scoring_and_pass_rule (plan : Plan) (band : String)
    (resolutionType : Option String) (req : RefinedGoal) :
    ((evaluate_plan plan band resolutionType req).score =
      max (100 -
        30 * ((evaluate_plan plan band resolutionType req).budget_violations.length : Int) -
        5 * ((evaluate_plan plan band resolutionType req).vagueness_flags.length : Int) -
        5 * ((evaluate_plan plan band resolutionType req).cadence_issues.length : Int) -
        15 * ((evaluate_plan plan band resolutionType req).overload_warnings.length : Int)) 0) ∧
    ((evaluate_plan plan band resolutionType req).passed = true ↔
      (((evaluate_plan plan band resolutionType req).budget_violations.length = 0 ∧
        50 ≤ (evaluate_plan plan band resolutionType req).score) ∨
       ((evaluate_plan plan band resolutionType req).budget_violations.length = 1 ∧
        60 ≤ (evaluate_plan plan band resolutionType req).score))) ∧
    ((evaluate_plan demoOneViolationPlan "medium" none {}).budget_violations.length = 1 ∧
     (evaluate_plan demoOneViolationPlan "medium" none {}).vagueness_flags = [] ∧
     (evaluate_plan demoOneViolationPlan "medium" none {}).cadence_issues = [] ∧
     (evaluate_plan demoOneViolationPlan "medium" none {}).overload_warnings = [] ∧
     (evaluate_plan demoOneViolationPlan "medium" none {}).score = 70 ∧
     (evaluate_plan demoOneViolationPlan "medium" none {}).passed = true) ∧
    ((evaluate_plan demoTwoViolationPlan "medium" none {}).budget_violations.length = 2 ∧
     (evaluate_plan demoTwoViolationPlan "medium" none {}).score = 40 ∧
     (evaluate_plan demoTwoViolationPlan "medium" none {}).passed = false) := by
  refine ⟨rfl, ?_, by decide, by decide⟩
  have hpass : (evaluate_plan plan band resolutionType req).passed =
      (((evaluate_plan plan band resolutionType req).budget_violations.isEmpty &&
        decide (50 ≤ (evaluate_plan plan band resolutionType req).score)) ||
       (((evaluate_plan plan band resolutionType req).budget_violations.length == 1) &&
        decide (60 ≤ (evaluate_plan plan band resolutionType req).score))) := rfl
  rw [hpass]
  simp [List.isEmpty_iff, List.length_eq_zero]

/-! ## C7 -/

theorem minutes_to_time_of_bounds {m : Int} (h0 : 0 ≤ m) (h1 : m < 1440) :
    minutes_to_time m = m.toNat := by
  unfold minutes_to_time
  rw [Int.emod_eq_of_lt h0 h1]

/-- C7: the claim as stated is false — with strict work-mode disabled, a
personal-domain task at 12:00 on a weekday inside a 9-17 work window is still
pushed to 18:00 (the non-strict branch applies the same push, only without the
wrap), so the assigned time is modified even though the strict rule is off. -/
theorem c7_counterexample_non_strict_still_pushes :
    select_personal_time (some 0) (some 720) {} none false (540, 1020) = 1080 ∧
      ¬((1080 : Nat) = 720) := by
  exact ⟨by decide, by decide⟩

/-- C7 (amended): for a personal-domain task on a weekday whose assigned time
falls inside the work window: with strict work-mode enabled the time is pushed
to one hour after the window's end, and when that push reaches 22:00 it wraps
to 90 minutes before the window's start (in particular, strictly before the
window's start); with strict work-mode disabled the wrap never applies, but
the time is still pushed to one hour after the window's end, capped at
22:00. -/
theorem c7_amended_strict_pushes_and_wraps (day t ws we : Nat)
    (profile : AvailabilityProfile) (pr : Option (Nat × Nat))
    (hday : day % 7 < 5) (hws : 390 ≤ ws) (hwe : we ≤ 1380) (hlt : ws < we)
    (hin1 : ws ≤ t) (hin2 : t < we) :
    (select_personal_time (some day) (some t) profile pr true (ws, we) =
      if 1320 ≤ we + 60 then ws - 90 else we + 60) ∧
    (1320 ≤ we + 60 →
      select_personal_time (some day) (some t) profile pr true (ws, we) < ws) ∧
    (select_personal_time (some day) (some t) profile pr false (ws, we) =
      min 1320 (we + 60)) := by
  have hweekend : (decide (day % 7 ≥ 5)) = false := by
    simp only [decide_eq_false_iff_not, not_le]
    omega
  have hmain : select_personal_time (some day) (some t) profile pr true (ws, we) =
      if 1320 ≤ we + 60 then ws - 90 else we + 60 := by
    by_cases hover : 1320 ≤ we + 60
    · rw [if_pos hover]
      simp only [select_personal_time, hweekend, Bool.not_false,
        Bool.true_and, Bool.false_and, Bool.and_true, Bool.and_eq_true, decide_eq_true_eq,
        max_def, min_def]
      split_ifs
      any_goals contradiction
      all_goals rw [minutes_to_time_of_bounds (by omega) (by omega)]
      all_goals omega
    · rw [if_neg hover]
      simp only [select_personal_time, hweekend, Bool.not_false,
        Bool.true_and, Bool.false_and, Bool.and_true, Bool.and_eq_true, decide_eq_true_eq,
        max_def, min_def]
      split_ifs
      any_goals contradiction
      all_goals rw [minutes_to_time_of_bounds (by omega) (by omega)]
      all_goals omega
  have hnostrict : select_personal_time (some day) (some t) profile pr false (ws, we) =
      min 1320 (we + 60) := by
    clear hmain
    simp only [select_personal_time, hweekend, Bool.not_false,
      Bool.true_and, Bool.false_and, Bool.and_true, Bool.and_eq_true, decide_eq_true_eq,
      Bool.false_eq_true, if_false, max_def, min_def]
    split_ifs
    any_goals contradiction
    all_goals rw [minutes_to_time_of_bounds (by omega) (by omega)]
    all_goals omega
  refine ⟨hmain, ?_, hnostrict⟩
  intro hover
  rw [hmain, if_pos hover]
  omega

theorem c7_amended_witness :
    ((select_personal_time (some 0) (some 600) {} none true (540, 1020) =
        if 1320 ≤ 1020 + 60 then 540 - 90 else 1020 + 60) ∧
      (1320 ≤ 1020 + 60 →
        select_personal_time (some 0) (some 600) {} none true (540, 1020) < 540) ∧
      (select_personal_time (some 0) (some 600) {} none false (540, 1020) =
        min 1320 (1020 + 60))) ∧
    ((select_personal_time (some 3) (some 700) {} none true (540, 1320) =
        if 1320 ≤ 1320 + 60 then 540 - 90 else 1320 + 60) ∧
      (1320 ≤ 1320 + 60 →
        select_personal_time (some 3) (some 700) {} none true (540, 1320) < 540) ∧
      (select_personal_time (some 3) (some 700) {} none false (540, 1320) =
        min 1320 (1320 + 60))) :=
  ⟨c7_amended_strict_pushes_and_wraps 0 600 540 1020 {} none (by decide) (by decide)
      (by decide) (by decide) (by decide) (by decide),
   c7_amended_strict_pushes_and_wraps 3 700 540 1320 {} none (by decide) (by decide)
      (by decide) (by decide) (by decide) (by decide)⟩

/-! ## C10 -/

theorem consistency_lookup_supports (key : String) (t : TaskTemplate)
    (h : CONSISTENCY_TEMPLATES.lookup key = some t) :
    cadence_supports_consistency t.cadence = true := by
  simp only [CONSISTENCY_TEMPLATES, List.lookup] at h
  split at h
  · cases h
    decide
  · split at h
    · cases h
      decide
    · split at h
      · cases h
        decide
      · split at h
        · cases h
          decide
        · split at h
          · cases h
            decide
          · cases h

theorem consistency_candidate_lookup_supports :
    ∀ (cands : List (Option String)) (t : TaskTemplate),
      consistency_candidate_lookup cands = some t →
      cadence_supports_consistency t.cadence = true := by
  intro cands
  induction cands with
  | nil =>
    intro t h
    cases h
  | cons hd tl ih =>
    intro t h
    rcases hd with _ | key
    · simp only [consistency_candidate_lookup, List.findSome?_cons] at h
      exact ih t h
    · simp only [consistency_candidate_lookup, List.findSome?_cons] at h
      by_cases hne : key ≠ ""
      · rw [if_pos hne] at h
        rcases hlk : CONSISTENCY_TEMPLATES.lookup key with _ | v
        · rw [hlk] at h
          exact ih t h
        · rw [hlk] at h
          cases h
          exact consistency_lookup_supports key t hlk
      · rw [if_neg hne] at h
        exact ih t h

theorem consistency_template_supports (resolutionType : Option String) :
    cadence_supports_consistency (consistency_template_for_type resolutionType).cadence =
      true := by
  show cadence_supports_consistency
    ((consistency_candidate_lookup
      [some (pyLower (orOptString resolutionType "")),
       TYPE_DEFAULT_TEMPLATE.lookup (pyLower (orOptString resolutionType "")),
       some "learning"]).getD
      ⟨"Daily focused study",
       "Show up every day for a short, high-quality reading or study block.", 30,
       .dict { type? := some "daily", times := some ["evening"] },
       some "Log one takeaway after each session so the learning sticks."⟩).cadence = true
  rcases hfind : consistency_candidate_lookup
      [some (pyLower (orOptString resolutionType "")),
       TYPE_DEFAULT_TEMPLATE.lookup (pyLower (orOptString resolutionType "")),
       some "learning"] with _ | t
  · decide
  · exact consistency_candidate_lookup_supports _ t hfind

theorem build_consistency_task_supports (resolutionType : Option String)
    (resolutionTitle : Option String) :
    cadence_supports_consistency
      (build_consistency_task resolutionType resolutionTitle).cadence = true := by
  unfold build_consistency_task
  exact consistency_template_supports resolutionType

theorem clean_week_one_entry_preserves (t : Task) :
    (clean_week_one_entry t).cadence = t.cadence ∧
      (clean_week_one_entry t).title = t.title := by
  simp only [clean_week_one_entry]
  split_ifs <;> exact ⟨rfl, rfl⟩

/-- C10 (implicit): for a non-"work" resolution domain, the normalized week-1
task list always contains a task whose cadence supports consistency; when no
incoming task qualifies, a type-specific consistency template task is appended
at the end, and every incoming task is kept in order (with only the
setup-task duration/note adjustment applied; title and cadence are
untouched). -/
theorem c10_week_one_consistency_task (tasks : List Task)
    (resolutionType : Option String) (resolutionTitle : Option String)
    (resolutionDomain : String) (hd : resolutionDomain ≠ "work") :
    (∃ t ∈ prepare_week_one_tasks tasks resolutionType resolutionTitle resolutionDomain,
      cadence_supports_consistency t.cadence = true) ∧
    (prepare_week_one_tasks tasks resolutionType resolutionTitle resolutionDomain =
      tasks.map clean_week_one_entry ++
        (if tasks.any (fun t => cadence_supports_consistency t.cadence) then []
         else [build_consistency_task resolutionType resolutionTitle])) ∧
    (∀ t, (clean_week_one_entry t).cadence = t.cadence ∧
      (clean_week_one_entry t).title = t.title) := by
  have hshape : prepare_week_one_tasks tasks resolutionType resolutionTitle resolutionDomain =
      tasks.map clean_week_one_entry ++
        (if tasks.any (fun t => cadence_supports_consistency t.cadence) then []
         else [build_consistency_task resolutionType resolutionTitle]) := by
    unfold prepare_week_one_tasks
    by_cases hany : tasks.any (fun t => cadence_supports_consistency t.cadence)
    · rw [if_pos hany]
      simp [hany]
    · rw [if_neg hany]
      simp only [Bool.not_eq_true] at hany
      simp [hany, hd]
  refine ⟨?_, hshape, clean_week_one_entry_preserves⟩
  by_cases hany : tasks.any (fun t => cadence_supports_consistency t.cadence)
  · rcases List.any_eq_true.mp hany with ⟨t, hmem, hsupp⟩
    refine ⟨clean_week_one_entry t, ?_, ?_⟩
    · rw [hshape]
      exact List.mem_append_left _ (List.mem_map_of_mem clean_week_one_entry hmem)
    · rw [(clean_week_one_entry_preserves t).1]
      exact hsupp
  · refine ⟨build_consistency_task resolutionType resolutionTitle, ?_,
      build_consistency_task_supports resolutionType resolutionTitle⟩
    rw [hshape, if_neg hany]
    exact List.mem_append_right _ (List.mem_singleton_self _)

theorem c10_witness :
    (∃ t ∈ prepare_week_one_tasks [] none none "personal",
      cadence_supports_consistency t.cadence = true) ∧
    (prepare_week_one_tasks [] none none "personal" =
      ([] : List Task).map clean_week_one_entry ++
        (if ([] : List Task).any (fun t => cadence_supports_consistency t.cadence) then []
         else [build_consistency_task none none])) ∧
    (∀ t, (clean_week_one_entry t).cadence = t.cadence ∧
      (clean_week_one_entry t).title = t.title) :=
  c10_week_one_consistency_task [] none none "personal" (by decide)

/-! ## C5 — cadence expansion (`_expand_target_days`, `_evenly_spaced_days`) -/

theorem insertSortedDedup_map_add (ws x : Nat) (l : List Nat) :
    insertSortedDedup (ws + x) (l.map (fun i => ws + i)) =
      (insertSortedDedup x l).map (fun i => ws + i) := by
  induction l with
  | nil => rfl
  | cons y ys ih =>
    simp only [List.map_cons, insertSortedDedup]
    by_cases h1 : x = y
    · rw [if_pos (by omega : ws + x = ws + y), if_pos h1, List.map_cons]
    · by_cases h2 : x < y
      · rw [if_neg (by omega : ¬ ws + x = ws + y), if_pos (by omega : ws + x < ws + y),
          if_neg h1, if_pos h2]
        simp
      · rw [if_neg (by omega : ¬ ws + x = ws + y), if_neg (by omega : ¬ ws + x < ws + y),
          if_neg h1, if_neg h2]
        simp [ih]

theorem dedupSort_map_add (ws : Nat) (l : List Nat) :
    dedupSort (l.map (fun i => ws + i)) = (dedupSort l).map (fun i => ws + i) := by
  suffices h : ∀ acc : List Nat,
      (l.map (fun i => ws + i)).foldl (fun a x => insertSortedDedup x a)
        (acc.map (fun i => ws + i)) =
      (l.foldl (fun a x => insertSortedDedup x a) acc).map (fun i => ws + i) by
    simpa [dedupSort] using h []
  induction l with
  | nil => intro acc; rfl
  | cons y ys ih =>
    intro acc
    simp only [List.map_cons, List.foldl_cons]
    rw [insertSortedDedup_map_add]
    exact ih (insertSortedDedup y acc)

theorem dedupSort_evenly_spaced (count : Int) (ws : Nat) :
    dedupSort (evenly_spaced_days count ws) = spec_x_per_week_days count ws := by
  simp only [evenly_spaced_days, spec_x_per_week_days]
  by_cases h1 : count ≤ 1
  · rw [if_pos h1]
    have hc : (max 1 (min count 7)).toNat = 1 := by
      rw [min_eq_left (by omega : count ≤ (7 : Int)), max_eq_left h1]
      rfl
    rw [hc]
    rfl
  · rw [if_neg h1]
    have hc : (max 1 (min count 7)).toNat = max 1 (min count.toNat 7) := by
      rcases le_or_lt count 7 with h7 | h7
      · rw [min_eq_left h7, max_eq_right (by omega : (1 : Int) ≤ count),
          min_eq_left (by omega : count.toNat ≤ 7), max_eq_right (by omega : 1 ≤ count.toNat)]
      · rw [min_eq_right (le_of_lt h7), min_eq_right (by omega : 7 ≤ count.toNat),
          show max (1 : Int) 7 = 7 from rfl, show max (1 : Nat) 7 = 7 from rfl]
        rfl
    rw [hc]

theorem expand_x_per_week_eq (count : Int) (ws : Nat) (rd : Bool) (hint : Option IsoStr)
    (d tm : Option (List String)) :
    expand_target_days ⟨some "x_per_week", none, some count, none, d, tm⟩ ws rd hint =
      spec_x_per_week_days count ws := by
  have h0 : expand_target_days ⟨some "x_per_week", none, some count, none, d, tm⟩ ws rd hint =
      dedupSort (evenly_spaced_days ((pyOrInt (some count) (pyOrInt none (some 1))).getD 1) ws) := by
    cases rd <;> rfl
  rw [h0]
  by_cases hc : count = 0
  · subst hc
    show dedupSort (evenly_spaced_days 1 ws) = spec_x_per_week_days 0 ws
    rw [dedupSort_evenly_spaced 1 ws]
    rfl
  · have harg : (pyOrInt (some count) (pyOrInt none (some 1))).getD 1 = count := by
      simp [pyOrInt, truthyInt, hc]
    rw [harg, dedupSort_evenly_spaced]

theorem expand_daily_eq (ws : Nat) (rd : Bool) (hint : Option IsoStr)
    (c? t? : Option Int) (d tm : Option (List String)) :
    expand_target_days ⟨some "daily", none, c?, t?, d, tm⟩ ws rd hint =
      (List.range 7).map (fun i => ws + i) := by
  have h0 : expand_target_days ⟨some "daily", none, c?, t?, d, tm⟩ ws rd hint =
      dedupSort ((List.range 7).map (fun i => ws + i)) := by
    cases rd <;> rfl
  rw [h0, dedupSort_map_add, show dedupSort (List.range 7) = List.range 7 from by decide]

theorem expand_specific_days_eq (ws : Nat) (rd : Bool) (hint : Option IsoStr)
    (c? t? : Option Int) (d tm : Option (List String)) :
    expand_target_days ⟨some "specific_days", none, c?, t?, d, tm⟩ ws rd hint =
      dedupSort ((normalize_days d).map (first_occurrence_on_or_after ws)) := by
  cases rd <;> rfl

theorem expand_once_eq (ws : Nat) (rd : Bool) (hint : Option IsoStr)
    (c? t? : Option Int) (d tm : Option (List String)) :
    expand_target_days ⟨some "once", none, c?, t?, d, tm⟩ ws rd hint = [ws] := by
  cases rd <;> rfl

theorem lookup_val_lt (m : List (String × Nat)) (hm : ∀ p ∈ m, p.2 < 7) :
    ∀ s idx, m.lookup s = some idx → idx < 7 := by
  induction m with
  | nil => intro s idx h; simp [List.lookup] at h
  | cons p es ih =>
    obtain ⟨k, v⟩ := p
    intro s idx h
    simp only [List.lookup] at h
    cases hk : s == k with
    | true =>
      rw [hk] at h
      simp only [Option.some.injEq] at h
      subst h
      exact hm (k, v) (by simp)
    | false =>
      rw [hk] at h
      exact ih (fun q hq => hm q (by simp [hq])) s idx h

theorem normalize_days_lt (d : Option (List String)) : ∀ i ∈ normalize_days d, i < 7 := by
  cases d with
  | none => intro i hi; simp [normalize_days] at hi
  | some days =>
    simp only [normalize_days]
    have key : ∀ (ds : List String) (acc : List Nat), (∀ i ∈ acc, i < 7) →
        ∀ i ∈ ds.foldl (fun acc day =>
          match WEEKDAY_MAP.lookup (pyLower (pyStrip day)) with
          | some idx => acc ++ [idx]
          | none => acc) acc, i < 7 := by
      intro ds
      induction ds with
      | nil => intro acc hacc i hi; exact hacc i hi
      | cons x xs ih =>
        intro acc hacc i hi
        rw [List.foldl_cons] at hi
        refine ih _ ?_ i hi
        cases hk : WEEKDAY_MAP.lookup (pyLower (pyStrip x)) with
        | none => simp only [hk]; exact hacc
        | some idx =>
          simp only [hk]
          intro j hj
          rcases List.mem_append.mp hj with hj | hj
          · exact hacc j hj
          · have hji : j = idx := by simpa using hj
            subst hji
            exact lookup_val_lt WEEKDAY_MAP (by decide) _ j hk
    exact key days [] (by simp)

theorem first_occurrence_spec (ws idx : Nat) (hidx : idx < 7) :
    ws ≤ first_occurrence_on_or_after ws idx ∧
    first_occurrence_on_or_after ws idx < ws + 7 ∧
    first_occurrence_on_or_after ws idx % 7 = idx ∧
    ∀ d, ws ≤ d → d % 7 = idx → first_occurrence_on_or_after ws idx ≤ d := by
  unfold first_occurrence_on_or_after
  have hemod : ((idx : Int) - ((ws % 7 : Nat) : Int)).emod 7 =
      (((idx + 7 - ws % 7) % 7 : Nat) : Int) := by
    have h : ((idx : Int) - ((ws % 7 : Nat) : Int)) % 7 =
        (((idx + 7 - ws % 7) % 7 : Nat) : Int) := by
      omega
    exact h
  rw [hemod, Int.toNat_natCast]
  refine ⟨by omega, by omega, by omega, fun d h1 h2 => by omega⟩

theorem expand_unrecognized_eq (t : String) (ws : Nat) (rd : Bool) (hint : Option IsoStr)
    (c? t? : Option Int) (d tm : Option (List String))
    (hlow : pyLower t = t)
    (hmem : t ∉ ["daily", "specific_days", "x_per_week", "times_per_week", "2x_in_week",
      "3x_in_week", "once", "one_time", "twice", "twice_per_week", "two_per_week",
      "thrice", "thrice_per_week", "three_per_week", "once_per_week"])
    (hcont : strContains t "daily" = false)
    (hsuf : strEndsWith t "x_per_week" = false) :
    expand_target_days ⟨some t, none, c?, t?, d, tm⟩ ws rd hint = [ws] := by
  simp only [List.mem_cons, List.mem_singleton, not_or] at hmem
  obtain ⟨h1, h2, h3, h4, h5, h6, h7, h8, h9, h10, h11, h12, h13, h14, h15⟩ := hmem
  have horor : orOptString (some t) (orOptString none "") = t := by
    by_cases ht : t = "" <;> simp [orOptString, orString, ht]
  simp only [expand_target_days]
  rw [horor, hlow]
  simp [h1, h2, h3, h4, h5, h6, h7, h8, h9, h10, h11, h12, h13, h14, h15, hcont, hsuf,
    dedupSort, insertSortedDedup]

/-- C5: `_expand_target_days` realises the spec's cadence table.  An
`x_per_week(count)` cadence yields, for every integer `count` and week start,
exactly the spec's days (count clamped to [1, 7], offsets `round(i * 7/count)`
clamped to 6, deduplicated and sorted); `x_per_week(3)` from a Monday week
start yields the 3 distinct in-week offsets `[0, 2, 5]`, strictly increasing;
a `daily` cadence yields all 7 days; `specific_days` yields the first
occurrence on or after the week start of each named weekday (each mapped
index is a weekday `< 7`, and the mapped date is the least date `≥ week
start` with that weekday); `once`, and any unrecognized lower-case cadence
type (one that is none of the recognized names, does not contain "daily" and
does not end in "x_per_week"), yield the week start only. -/
theorem c5_cadence_expansion_spec :
    (∀ (count : Int) (ws : Nat) (rd : Bool) (hint : Option IsoStr)
        (d tm : Option (List String)),
      expand_target_days ⟨some "x_per_week", none, some count, none, d, tm⟩ ws rd hint =
        spec_x_per_week_days count ws) ∧
    (expand_target_days ⟨some "x_per_week", none, some 3, none, none, none⟩ 0 false none =
        [0, 2, 5] ∧
      [0, 2, 5].length = 3 ∧ List.Pairwise (· < ·) [0, 2, 5] ∧ ∀ x ∈ [0, 2, 5], x ≤ 6) ∧
    (∀ (ws : Nat) (rd : Bool) (hint : Option IsoStr) (c? t? : Option Int)
        (d tm : Option (List String)),
      expand_target_days ⟨some "daily", none, c?, t?, d, tm⟩ ws rd hint =
        (List.range 7).map (fun i => ws + i)) ∧
    (∀ (ws : Nat) (rd : Bool) (hint : Option IsoStr) (c? t? : Option Int)
        (d tm : Option (List String)),
      expand_target_days ⟨some "specific_days", none, c?, t?, d, tm⟩ ws rd hint =
        dedupSort ((normalize_days d).map (first_occurrence_on_or_after ws)) ∧
      ∀ idx ∈ normalize_days d,
        idx < 7 ∧
        ws ≤ first_occurrence_on_or_after ws idx ∧
        first_occurrence_on_or_after ws idx < ws + 7 ∧
        first_occurrence_on_or_after ws idx % 7 = idx ∧
        ∀ d', ws ≤ d' → d' % 7 = idx → first_occurrence_on_or_after ws idx ≤ d') ∧
    (∀ (ws : Nat) (rd : Bool) (hint : Option IsoStr) (c? t? : Option Int)
        (d tm : Option (List String)),
      expand_target_days ⟨some "once", none, c?, t?, d, tm⟩ ws rd hint = [ws]) ∧
    (∀ (t : String) (ws : Nat) (rd : Bool) (hint : Option IsoStr) (c? t? : Option Int)
        (d tm : Option (List String)),
      pyLower t = t →
      t ∉ ["daily", "specific_days", "x_per_week", "times_per_week", "2x_in_week",
        "3x_in_week", "once", "one_time", "twice", "twice_per_week", "two_per_week",
        "thrice", "thrice_per_week", "three_per_week", "once_per_week"] →
      strContains t "daily" = false →
      strEndsWith t "x_per_week" = false →
      expand_target_days ⟨some t, none, c?, t?, d, tm⟩ ws rd hint = [ws]) := by
  refine ⟨expand_x_per_week_eq, ⟨by decide, by decide, by decide, by decide⟩,
    expand_daily_eq, ?_, expand_once_eq, expand_unrecognized_eq⟩
  intro ws rd hint c? t? d tm
  refine ⟨expand_specific_days_eq ws rd hint c? t? d tm, ?_⟩
  intro idx hidx
  have hlt := normalize_days_lt d idx hidx
  have hspec := first_occurrence_spec ws idx hlt
  exact ⟨hlt, hspec.1, hspec.2.1, hspec.2.2.1, hspec.2.2.2⟩

theorem c5_witness :
    expand_target_days ⟨some "x_per_week", none, some 3, none, none, none⟩ 7 true none =
        spec_x_per_week_days 3 7 ∧
      first_occurrence_on_or_after 7 4 % 7 = 4 ∧
      expand_target_days ⟨some "mystery", none, none, none, none, none⟩ 7 false none = [7] :=
  ⟨c5_cadence_expansion_spec.1 3 7 true none none none,
   ((c5_cadence_expansion_spec.2.2.2.1 7 false none none none (some ["friday"]) none).2 4
      (by decide)).2.2.2.1,
   c5_cadence_expansion_spec.2.2.2.2.2 "mystery" 7 false none none none none none rfl
     (by decide) (by decide) (by decide)⟩

/-! ## C4 — scheduler load and spacing (`_schedule_on_or_after`,
`_enrich_tasks_with_schedule`) -/

/-- C4 counterexample: the claimed invariant "no day accumulates more than 2
tasks of duration ≥ 15 minutes" fails.  Seven 30-minute one-off tasks under a
Mondays-only preference exhaust the 21-day scan (Mondays 0, 7, 14 each fill
up to the cap of 2), and the seventh task is force-assigned back onto day 0,
which then carries 3 heavy tasks. -/
theorem c4_counterexample_force_assign_overloads_day :
    ((enrich_tasks_with_schedule (List.replicate 7 demoHeavyTask) none
        (some demoMondayContext) true 0).filter
      (fun t => t.scheduled_day = some (.valid 0) && 15 ≤ task_duration t)).length = 3 ∧
    ¬ (3 ≤ 2) := by
  refine ⟨by decide, by omega⟩

theorem scheduleScan_accepts (pd : List Nat) (dur : Int) (load : LoadMap)
    (ll : Option Nat) :
    ∀ (fuel start d : Nat), scheduleScan pd dur load ll fuel start = some d →
      (pd.isEmpty || pd.contains (d % 7)) = true ∧
      effectiveLoad (dayMapGet load d []) < 2 ∧
      longConflict dur ll d = false ∧
      start ≤ d ∧ d < start + fuel := by
  intro fuel
  induction fuel with
  | zero => intro start d h; simp [scheduleScan] at h
  | succ n ih =>
    intro start d h
    simp only [scheduleScan] at h
    split at h
    next hc =>
      injection h with h'
      subst h'
      simp only [Bool.and_eq_true, Bool.not_eq_true', decide_eq_true_eq] at hc
      exact ⟨hc.1.1, hc.1.2, hc.2, le_refl _, by omega⟩
    next hc =>
      obtain ⟨hm, hl, hlc, hge, hlt⟩ := ih (start + 1) d h
      exact ⟨hm, hl, hlc, by omega, by omega⟩

/-- C4 amended: what `_schedule_on_or_after` actually guarantees.  Any day
ACCEPTED by the 21-day forward scan respects the preference filter, carries at
most 1 existing task of ≥ 15 minutes (so at most 2 after placement), is not
within 1 day of the last long (> 60 min) task, and lies within
`[target, target + 21)`; when the scan is exhausted the original target day is
force-assigned unconditionally, with no re-check of the load and spacing rules
(which is exactly how the claimed universal cap fails); and the spec's
scenario does hold: 3 tasks of 90 minutes all targeted at day 0 land on days
0, 2 and 4 — three distinct days, pairwise at least 2 apart. -/
theorem c4_amended_scheduler_guarantees :
    (∀ (pd : List Nat) (dur : Int) (load : LoadMap) (ll : Option Nat)
        (fuel start d : Nat), scheduleScan pd dur load ll fuel start = some d →
      (pd.isEmpty || pd.contains (d % 7)) = true ∧
      effectiveLoad (dayMapGet load d []) < 2 ∧
      longConflict dur ll d = false ∧
      start ≤ d ∧ d < start + fuel) ∧
    (∀ (td : Nat) (pd : List Nat) (dur : Int) (load : LoadMap) (ll : Option Nat),
      scheduleScan pd dur load ll 21 td = none →
      (schedule_on_or_after td pd dur load ll).1 = td) ∧
    ((enrich_tasks_with_schedule [demoLongTask, demoLongTask, demoLongTask] none
        none false 0).map (fun t => t.scheduled_day) =
      [some (.valid 0), some (.valid 2), some (.valid 4)] ∧
     List.Pairwise (fun a b => a + 2 ≤ b) [0, 2, 4]) := by
  refine ⟨fun pd dur load ll => scheduleScan_accepts pd dur load ll, ?_, by decide, by decide⟩
  intro td pd dur load ll h
  simp [schedule_on_or_after, h]

theorem c4_amended_witness :
    ((([] : List Nat).isEmpty || ([] : List Nat).contains (0 % 7)) = true ∧
      effectiveLoad (dayMapGet ([] : LoadMap) 0 []) < 2 ∧
      longConflict 30 none 0 = false ∧
      0 ≤ 0 ∧ 0 < 0 + 21) ∧
    (schedule_on_or_after 0 [0] 30
      [(0, [30, 30]), (7, [30, 30]), (14, [30, 30])] none).1 = 0 :=
  ⟨c4_amended_scheduler_guarantees.1 [] 30 [] none 21 0 0 (by decide),
   c4_amended_scheduler_guarantees.2.1 0 [0] 30
     [(0, [30, 30]), (7, [30, 30]), (14, [30, 30])] none (by decide)⟩

/-! ## C2 — state machine guarantees (`decompose_resolution_with_llm`,
`_normalize_milestones`) -/

theorem foldl_snd_len_ge {σ α β : Type} (g : (σ × List β) → α → (σ × List β))
    (hg : ∀ a x, a.2.length + 1 ≤ ((g a x).2).length) :
    ∀ (xs : List α) (a : σ × List β), a.2.length + xs.length ≤ ((xs.foldl g a).2).length := by
  intro xs
  induction xs with
  | nil => intro a; simp
  | cons x xs ih =>
    intro a
    simp only [List.foldl_cons, List.length_cons]
    have h1 := hg a x
    have h2 := ih (g a x)
    omega

theorem enrich_step_out_grows (ws : Nat) (pd : List Nat) (conf : String) (tp : Nat)
    (wh : Option (Nat × Nat)) (rd : Bool) (acc : EnrichState × List Task) (t : Task) :
    acc.2.length + 1 ≤ ((enrich_step ws pd conf tp wh rd acc t).2).length := by
  simp only [enrich_step]
  refine le_trans ?_ (foldl_snd_len_ge _ ?_ _ acc)
  · split_ifs with h
    · simp
    · have hne : ¬ expand_target_days (build_cadence_struct t.cadence) ws rd
          t.scheduled_day = [] := by
        intro hnil
        simp [hnil] at h
      have hpos := List.length_pos.mpr hne
      omega
  · intro a x
    simp

theorem enrich_tasks_length_ge (tasks : List Task) (rt : Option String)
    (uc : Option UserContext) (rd : Bool) (today : Nat) :
    tasks.length ≤ (enrich_tasks_with_schedule tasks rt uc rd today).length := by
  simp only [enrich_tasks_with_schedule]
  have h := foldl_snd_len_ge
    (enrich_step today (normalize_days (uc.getD {}).preferred_days)
      (confidence_level (normalize_days (uc.getD {}).preferred_days)
        (uc.getD {}).preferred_time_blocks)
      (preferred_time_for_resolution rt (uc.getD {}).preferred_time_blocks)
      (uc.getD {}).work_hours rd)
    (fun a x => enrich_step_out_grows _ _ _ _ _ _ a x)
    tasks (({} : EnrichState), ([] : List Task))
  simpa using h

theorem enrich_tasks_nonempty (tasks : List Task) (rt : Option String)
    (uc : Option UserContext) (rd : Bool) (today : Nat) (h : tasks ≠ []) :
    enrich_tasks_with_schedule tasks rt uc rd today ≠ [] := by
  have h1 := enrich_tasks_length_ge tasks rt uc rd today
  have h2 := List.length_pos.mpr h
  intro hnil
  rw [hnil] at h1
  simp only [List.length_nil, Nat.le_zero] at h1
  omega

theorem prepare_week_one_nonempty (tasks : List Task) (rt : Option String)
    (title : Option String) (dom : String) (h : tasks ≠ []) :
    prepare_week_one_tasks tasks rt title dom ≠ [] := by
  obtain ⟨t, ts, rfl⟩ : ∃ t ts, tasks = t :: ts := by
    cases tasks with
    | nil => exact absurd rfl h
    | cons t ts => exact ⟨t, ts, rfl⟩
  simp only [prepare_week_one_tasks]
  split_ifs <;> simp

theorem stableInsert_mem {α : Type} (le : α → α → Bool) (x a : α) (l : List α) :
    a ∈ stableInsert le x l ↔ a = x ∨ a ∈ l := by
  induction l with
  | nil => simp [stableInsert]
  | cons y ys ih =>
    simp only [stableInsert]
    split_ifs with h
    · simp only [List.mem_cons, ih]
      tauto
    · simp only [List.mem_cons]

theorem stableSortBy_mem {α : Type} (le : α → α → Bool) (a : α) (l : List α) :
    a ∈ stableSortBy le l ↔ a ∈ l := by
  suffices h : ∀ acc : List α,
      a ∈ l.foldl (fun acc x => stableInsert le x acc) acc ↔ a ∈ acc ∨ a ∈ l by
    simpa [stableSortBy] using h []
  induction l with
  | nil => simp
  | cons x xs ih =>
    intro acc
    simp only [List.foldl_cons, ih, stableInsert_mem, List.mem_cons]
    tauto

theorem coverage_core (baseL : List Milestone) (seen : List Int) (maxW : Int)
    (hbase : ∀ v : Int, seen.contains v = true → ∃ m ∈ baseL, m.week_number = v)
    (w : Int) (h1 : 1 ≤ w) (h2 : w ≤ maxW) :
    ∃ m ∈ baseL ++ ((List.range maxW.toNat).map (fun (k : Nat) => ((k : Int) + 1))).filterMap
      (milestone_filler seen), m.week_number = w := by
  by_cases hs : seen.contains w = true
  · obtain ⟨m, hm, hw⟩ := hbase w hs
    exact ⟨m, List.mem_append_left _ hm, hw⟩
  · have hw : w ∈ (List.range maxW.toNat).map (fun (k : Nat) => ((k : Int) + 1)) := by
      refine List.mem_map.mpr ⟨(w - 1).toNat, List.mem_range.mpr ?_, ?_⟩ <;> omega
    refine ⟨{ week_number := w,
              focus_summary := WEEKLY_FOCUS_FALLBACKS.getD
                (min (WEEKLY_FOCUS_FALLBACKS.length - 1) (w - 1).toNat) "",
              success_criteria := [] }, List.mem_append_right _ ?_, rfl⟩
    refine List.mem_filterMap.mpr ⟨w, hw, ?_⟩
    simp [milestone_filler, hs]
    intro hmem
    exact hs (by simpa using hmem)

theorem normalize_milestones_base_covers (ms : List Milestone) :
    ∀ v : Int, (normalize_milestones_base ms).2.contains v = true →
      ∃ m ∈ (normalize_milestones_base ms).1, m.week_number = v := by
  intro v hv
  simp only [normalize_milestones_base] at hv ⊢
  split_ifs at hv ⊢ with h
  · have hv1 : v = 1 := by simpa [eq_comm] using hv
    subst hv1
    exact ⟨_, List.mem_singleton_self _, rfl⟩
  · have hv' : v ∈ (ms.filter (fun m => m.week_number ≠ 0)).map
        (fun m => m.week_number) := by
      simpa using hv
    obtain ⟨k, hk, hkv⟩ := List.mem_map.mp hv'
    refine ⟨normalize_milestone_entry k, List.mem_map_of_mem _ hk, ?_⟩
    show k.week_number = v
    exact hkv

theorem normalize_milestones_coverage (ms : List Milestone) (dw : Int)
    (tw : Option Int) :
    ∀ w : Int, 1 ≤ w → w ≤ (normalize_milestones ms dw tw).2 →
      ∃ m ∈ (normalize_milestones ms dw tw).1, m.week_number = w := by
  intro w h1 h2
  simp only [normalize_milestones] at h2 ⊢
  simp only [stableSortBy_mem]
  exact coverage_core (normalize_milestones_base ms).1 (normalize_milestones_base ms).2
    (normalize_milestones_max ms dw tw) (normalize_milestones_base_covers ms) w h1 h2

theorem week1_ne_of_schema (q : Plan) (h : schema_valid q = true) :
    q.week_1_tasks ≠ [] := by
  intro hnil
  simp only [schema_valid, Bool.and_eq_true] at h
  have h4 := h.1.1.2
  rw [hnil] at h4
  simp at h4

theorem post_process_plan_props (p : Plan) (rt : Option String) (uc : Option UserContext)
    (tw : Option Int) (dom : String) (today : Nat) (hne : p.week_1_tasks ≠ []) :
    (∀ w : Int, 1 ≤ w → w ≤ (post_process_plan p rt uc tw dom today).duration_weeks →
      ∃ m ∈ (post_process_plan p rt uc tw dom today).milestones, m.week_number = w) ∧
    (post_process_plan p rt uc tw dom today).week_1_tasks ≠ [] := by
  constructor
  · intro w h1 h2
    exact normalize_milestones_coverage p.milestones p.duration_weeks tw w h1 h2
  · intro hnil
    exact enrich_tasks_nonempty (prepare_week_one_tasks p.week_1_tasks rt
      (some p.resolution_title) dom) rt uc (dom ≠ "work") today
      (prepare_week_one_nonempty p.week_1_tasks rt (some p.resolution_title) dom hne) hnil

theorem run_candidate_plan_props (cfg : DecomposeConfig) (raw : Plan) (today : Nat)
    (hne : raw.week_1_tasks ≠ []) :
    (∀ w : Int, 1 ≤ w → w ≤ (run_candidate cfg raw today).1.duration_weeks →
      ∃ m ∈ (run_candidate cfg raw today).1.milestones, m.week_number = w) ∧
    (run_candidate cfg raw today).1.week_1_tasks ≠ [] := by
  have hprops := post_process_plan_props raw cfg.resolutionType cfg.planningContext
    (some cfg.sanitizedWeeks) cfg.domainLabel today hne
  constructor
  · intro w h1 h2
    exact hprops.1 w h1 h2
  · intro hnil
    have heq : (run_candidate cfg raw today).1.week_1_tasks =
        ((post_process_plan raw cfg.resolutionType cfg.planningContext
          (some cfg.sanitizedWeeks) cfg.domainLabel today).week_1_tasks).map
          (fun t => enforce_task_against_availability t cfg.domainLabel cfg.category
            (sanitize_availability_profile (some cfg.availability))
            (sanitize_availability_profile (some cfg.availability)).work_mode_enabled
            today) := rfl
    rw [heq] at hnil
    exact hprops.2 (List.map_eq_nil_iff.mp hnil)

theorem fallback_plan_props (ui : String) (dw : Int) (rt : Option String)
    (cat : Option String) (uc : Option UserContext) (band br : String)
    (rg : RefinedGoal) (today : Nat) :
    (∀ w : Int, 1 ≤ w → w ≤ (fallback_plan ui dw rt cat uc band br rg today).duration_weeks →
      ∃ m ∈ (fallback_plan ui dw rt cat uc band br rg today).milestones,
        m.week_number = w) ∧
    (fallback_plan ui dw rt cat uc band br rg today).week_1_tasks ≠ [] := by
  constructor
  · intro w h1 h2
    have hdur : (fallback_plan ui dw rt cat uc band br rg today).duration_weeks =
        max 4 (min 12 (if dw ≠ 0 then dw else 8)) := rfl
    rw [hdur] at h2
    have hmil : (fallback_plan ui dw rt cat uc band br rg today).milestones =
        (List.range (max 4 (min 12 (if dw ≠ 0 then dw else 8))).toNat).map
          (fallback_milestone (goal_focus_phrase (some ui))) := rfl
    have h4 : (4 : Int) ≤ max 4 (min 12 (if dw ≠ 0 then dw else 8)) := le_max_left _ _
    refine ⟨fallback_milestone (goal_focus_phrase (some ui)) ((w - 1).toNat), ?_, ?_⟩
    · rw [hmil]
      refine List.mem_map_of_mem _ (List.mem_range.mpr ?_)
      omega
    · show ((((w - 1).toNat + 1 : Nat)) : Int) = w
      omega
  · have hweek : (fallback_plan ui dw rt cat uc band br rg today).week_1_tasks =
        (if (enrich_tasks_with_schedule ((fallback_task_templates ui rt).map
              (fallback_task_from_template rt (goal_focus_phrase (some ui)))) rt uc
              false today).length > 4
         then (enrich_tasks_with_schedule ((fallback_task_templates ui rt).map
              (fallback_task_from_template rt (goal_focus_phrase (some ui)))) rt uc
              false today).take 4
         else enrich_tasks_with_schedule ((fallback_task_templates ui rt).map
              (fallback_task_from_template rt (goal_focus_phrase (some ui)))) rt uc
              false today).map public_task_data := rfl
    intro hnil
    rw [hweek] at hnil
    have htt : fallback_task_templates ui rt ≠ [] := by
      simp only [fallback_task_templates]
      split_ifs with h
      · decide
      · intro hnil2
        rw [hnil2] at h
        simp at h
    have hlen : 1 ≤ (enrich_tasks_with_schedule ((fallback_task_templates ui rt).map
        (fallback_task_from_template rt (goal_focus_phrase (some ui)))) rt uc
        false today).length := by
      have hge := enrich_tasks_length_ge ((fallback_task_templates ui rt).map
        (fallback_task_from_template rt (goal_focus_phrase (some ui)))) rt uc false today
      have hpos := List.length_pos.mpr htt
      rw [List.length_map] at hge
      omega
    have hmap := List.map_eq_nil_iff.mp hnil
    by_cases hgt : (enrich_tasks_with_schedule ((fallback_task_templates ui rt).map
        (fallback_task_from_template rt (goal_focus_phrase (some ui)))) rt uc
        false today).length > 4
    · rw [if_pos hgt] at hmap
      have htl : ((enrich_tasks_with_schedule ((fallback_task_templates ui rt).map
          (fallback_task_from_template rt (goal_focus_phrase (some ui)))) rt uc
          false today).take 4).length = 0 := by rw [hmap]; rfl
      rw [List.length_take] at htl
      omega
    · rw [if_neg hgt] at hmap
      rw [hmap] at hlen
      simp at hlen

theorem run_fallback_plan_props (cfg : DecomposeConfig) (today : Nat) :
    (∀ w : Int, 1 ≤ w → w ≤ (run_fallback cfg today).1.duration_weeks →
      ∃ m ∈ (run_fallback cfg today).1.milestones, m.week_number = w) ∧
    (run_fallback cfg today).1.week_1_tasks ≠ [] := by
  have hprops := fallback_plan_props cfg.userInput cfg.sanitizedWeeks cfg.resolutionType
    cfg.category cfg.planningContext cfg.bandLabel cfg.bandRationale cfg.refinedGoal today
  constructor
  · intro w h1 h2
    exact hprops.1 w h1 h2
  · intro hnil
    have heq : (run_fallback cfg today).1.week_1_tasks =
        ((fallback_plan cfg.userInput cfg.sanitizedWeeks cfg.resolutionType cfg.category
          cfg.planningContext cfg.bandLabel cfg.bandRationale cfg.refinedGoal
          today).week_1_tasks).map
          (fun t => enforce_task_against_availability t cfg.domainLabel cfg.category
            (sanitize_availability_profile (some cfg.availability))
            (sanitize_availability_profile (some cfg.availability)).work_mode_enabled
            today) := rfl
    rw [heq] at hnil
    exact hprops.2 (List.map_eq_nil_iff.mp hnil)

theorem finalize_plan_props (q : Plan) (ev : EvaluationResult) (bl br : String)
    (r g f : Bool)
    (h : (∀ w : Int, 1 ≤ w → w ≤ q.duration_weeks →
        ∃ m ∈ q.milestones, m.week_number = w) ∧ q.week_1_tasks ≠ []) :
    (∀ w : Int, 1 ≤ w → w ≤ (finalize_plan q ev bl br r g f).duration_weeks →
      ∃ m ∈ (finalize_plan q ev bl br r g f).milestones, m.week_number = w) ∧
    (finalize_plan q ev bl br r g f).week_1_tasks ≠ [] := by
  constructor
  · intro w h1 h2
    exact h.1 w h1 h2
  · intro hnil
    have heq : (finalize_plan q ev bl br r g f).week_1_tasks =
        q.week_1_tasks.map public_task_data := rfl
    rw [heq] at hnil
    exact h.2 (List.map_eq_nil_iff.mp hnil)

theorem repair_stage_calls_le (cfg : DecomposeConfig) (beh : ProposerBehavior)
    (raw : Plan) (today : Nat) : (repair_stage cfg beh raw today).2 ≤ 2 := by
  simp only [repair_stage]
  split_ifs
  · cases beh.repair <;> simp
  · simp

theorem regen_stage_calls_le (cfg : DecomposeConfig) (beh : ProposerBehavior)
    (raw : Plan) (today : Nat) : (regen_stage cfg beh raw today).2 ≤ 3 := by
  simp only [regen_stage]
  have h := repair_stage_calls_le cfg beh raw today
  split_ifs
  · cases beh.regenerate <;> simp <;> omega
  · omega

theorem repair_stage_plan_cases (cfg : DecomposeConfig) (beh : ProposerBehavior)
    (raw : Plan) (today : Nat) :
    (repair_stage cfg beh raw today).1 = run_candidate cfg raw today ∨
    ∃ r, beh.repair = .ok r ∧
      (repair_stage cfg beh raw today).1 = run_candidate cfg r today := by
  simp only [repair_stage]
  split_ifs with h
  · cases hr : beh.repair with
    | ok r => exact Or.inr ⟨r, rfl, rfl⟩
    | error e => exact Or.inl rfl
  · exact Or.inl rfl

theorem regen_stage_plan_cases (cfg : DecomposeConfig) (beh : ProposerBehavior)
    (raw : Plan) (today : Nat) :
    (regen_stage cfg beh raw today).1 = (repair_stage cfg beh raw today).1 ∨
    ∃ r, beh.regenerate = .ok r ∧
      (regen_stage cfg beh raw today).1 = run_candidate cfg r today := by
  simp only [regen_stage]
  split_ifs with h
  · cases hr : beh.regenerate with
    | ok r => exact Or.inr ⟨r, rfl, rfl⟩
    | error e => exact Or.inl rfl
  · exact Or.inl rfl

/-- C2 counterexample: the returned plan does NOT have exactly one milestone
per week.  A schema-valid proposal with two Week-1 milestones passes
evaluation unchanged, and `_normalize_milestones` keeps both duplicates (it
only adds fillers for missing weeks), so the returned plan carries 5
milestones for `duration_weeks = 4`, two of them for week 1. -/
theorem c2_counterexample_duplicate_milestones_survive :
    ((decomposedPlan? (decompose_resolution_with_llm demoArgs
        { hasClient := true, propose := .ok demoDupMilestonePlan,
          repair := .error (), regenerate := .error () } 0)).map
      (fun p => p.milestones.map (fun m => m.week_number))) = some [1, 1, 2, 3, 4] ∧
    ((decomposedPlan? (decompose_resolution_with_llm demoArgs
        { hasClient := true, propose := .ok demoDupMilestonePlan,
          repair := .error (), regenerate := .error () } 0)).map
      (fun p => ((p.milestones.filter (fun m => m.week_number = 1)).length,
        p.duration_weeks))) = some (2, 4) ∧
    ¬ (2 ≤ 1) := by
  refine ⟨by decide, by decide, by omega⟩

/-- C2 amended: for every request, Proposer behavior and anchor date, the
state machine makes at most 3 proposer calls; and — provided every plan the
Proposer hands back satisfies the `ResolutionPlan` schema bounds — any plan
the machine returns has AT LEAST one milestone for every week from 1 through
its `duration_weeks` (duplicate week numbers may survive, so "exactly one"
fails) and a non-empty week-1 task list.  An unguarded propose exception
makes the machine return the error instead of a plan (see C1); whenever a
plan is returned, these guarantees hold. -/
theorem c2_amended_state_machine_guarantees (args : DecomposeArgs)
    (beh : ProposerBehavior) (today : Nat)
    (hpr : ∀ r, beh.propose = .ok r → schema_valid r = true)
    (hre : ∀ r, beh.repair = .ok r → schema_valid r = true)
    (hrg : ∀ r, beh.regenerate = .ok r → schema_valid r = true) :
    (decompose_resolution_with_llm args beh today).2 ≤ 3 ∧
    ∀ p, (decompose_resolution_with_llm args beh today).1 = .ok p →
      (∀ w : Int, 1 ≤ w → w ≤ p.duration_weeks →
        ∃ m ∈ p.milestones, m.week_number = w) ∧
      p.week_1_tasks ≠ [] := by
  constructor
  · simp only [decompose_resolution_with_llm]
    cases hb : beh.hasClient with
    | false => simp
    | true =>
      simp only [Bool.not_true, Bool.false_eq_true, if_false]
      cases hp : beh.propose with
      | error e => simp
      | ok raw =>
        simp only []
        exact regen_stage_calls_le (mk_decompose_config args) beh raw today
  · intro p hp
    simp only [decompose_resolution_with_llm] at hp
    cases hb : beh.hasClient with
    | false =>
      rw [hb] at hp
      simp only [Bool.not_false, if_true, Except.ok.injEq] at hp
      subst hp
      exact finalize_plan_props _ _ _ _ _ _ _
        (run_fallback_plan_props (mk_decompose_config args) today)
    | true =>
      rw [hb] at hp
      simp only [Bool.not_true, Bool.false_eq_true, if_false] at hp
      cases hr : beh.propose with
      | error e => rw [hr] at hp; simp at hp
      | ok raw =>
        rw [hr] at hp
        simp only [Except.ok.injEq] at hp
        subst hp
        apply finalize_plan_props
        by_cases hf :
            (!(regen_stage (mk_decompose_config args) beh raw today).1.2.passed) = true
        · rw [if_pos hf]
          exact run_fallback_plan_props (mk_decompose_config args) today
        · rw [if_neg hf]
          have hrawne : raw.week_1_tasks ≠ [] := week1_ne_of_schema raw (hpr raw hr)
          rcases regen_stage_plan_cases (mk_decompose_config args) beh raw today with
            h | ⟨r, hrr, h⟩
          · rw [h]
            rcases repair_stage_plan_cases (mk_decompose_config args) beh raw today with
              h2 | ⟨r2, hrr2, h2⟩
            · rw [h2]
              exact run_candidate_plan_props _ raw today hrawne
            · rw [h2]
              exact run_candidate_plan_props _ r2 today
                (week1_ne_of_schema r2 (hre r2 hrr2))
          · rw [h]
            exact run_candidate_plan_props _ r today (week1_ne_of_schema r (hrg r hrr))

theorem c2_amended_witness :
    (decompose_resolution_with_llm demoArgs
      { hasClient := true, propose := .ok demoDupMilestonePlan,
        repair := .error (), regenerate := .error () } 0).2 ≤ 3 :=
  (c2_amended_state_machine_guarantees demoArgs
    { hasClient := true, propose := .ok demoDupMilestonePlan,
      repair := .error (), regenerate := .error () } 0
    (fun r h => by injection h with h'; rw [← h']; decide)
    (fun r h => by exact absurd h (by simp))
    (fun r h => by exact absurd h (by simp))).1

/-! ## C8 — the fallback state is terminal and unconditional -/

/-- C8: whenever the fallback state fires — no Proposer client is configured,
or a proposal was obtained and the post-repair, post-regenerate candidate
still fails evaluation — the machine returns exactly the finalized
template-built fallback plan (`run_fallback`, i.e. `_fallback_plan` plus the
availability pass and its observability-only evaluation).  The returned value
is `finalize_plan` of the fallback pair unconditionally: no predicate on the
fallback's own evaluation (its `passed` flag or score) appears, the proposer
call count does not increase on the fallback transition (0 calls without a
client; the pre-fallback count, at most 3, otherwise), and no further repair,
regenerate or fallback stage runs. -/
theorem c8_fallback_always_returned (args : DecomposeArgs) (beh : ProposerBehavior)
    (today : Nat) :
    (beh.hasClient = false →
      decompose_resolution_with_llm args beh today =
        (.ok (finalize_plan (run_fallback (mk_decompose_config args) today).1
          (run_fallback (mk_decompose_config args) today).2
          (mk_decompose_config args).bandLabel (mk_decompose_config args).bandRationale
          false false true), 0)) ∧
    (∀ raw, beh.hasClient = true → beh.propose = .ok raw →
      (regen_stage (mk_decompose_config args) beh raw today).1.2.passed = false →
      decompose_resolution_with_llm args beh today =
        (.ok (finalize_plan (run_fallback (mk_decompose_config args) today).1
          (run_fallback (mk_decompose_config args) today).2
          (mk_decompose_config args).bandLabel (mk_decompose_config args).bandRationale
          (repair_used_flag (mk_decompose_config args) raw today)
          (regen_used_flag (mk_decompose_config args) beh raw today) true),
         (regen_stage (mk_decompose_config args) beh raw today).2) ∧
      (regen_stage (mk_decompose_config args) beh raw today).2 ≤ 3) := by
  constructor
  · exact decompose_eq_of_no_client args beh today
  · intro raw hc hp hfail
    refine ⟨?_, regen_stage_calls_le _ _ _ _⟩
    rw [decompose_eq_of_propose_ok args beh today raw hc hp]
    rw [if_pos (show (!(regen_stage (mk_decompose_config args) beh raw today).1.2.passed)
      = true by rw [hfail]; rfl)]
    rw [hfail]
    rfl

theorem c8_witness :
    decompose_resolution_with_llm demoArgs
        { hasClient := false, propose := .error (), repair := .error (),
          regenerate := .error () } 0 =
      (.ok (finalize_plan (run_fallback (mk_decompose_config demoArgs) 0).1
        (run_fallback (mk_decompose_config demoArgs) 0).2
        (mk_decompose_config demoArgs).bandLabel
        (mk_decompose_config demoArgs).bandRationale false false true), 0) ∧
    (decompose_resolution_with_llm demoArgs
        { hasClient := true, propose := .ok demoFailingPlan, repair := .error (),
          regenerate := .error () } 0 =
      (.ok (finalize_plan (run_fallback (mk_decompose_config demoArgs) 0).1
        (run_fallback (mk_decompose_config demoArgs) 0).2
        (mk_decompose_config demoArgs).bandLabel
        (mk_decompose_config demoArgs).bandRationale
        (repair_used_flag (mk_decompose_config demoArgs) demoFailingPlan 0)
        (regen_used_flag (mk_decompose_config demoArgs)
          { hasClient := true, propose := .ok demoFailingPlan, repair := .error (),
            regenerate := .error () } demoFailingPlan 0) true),
       (regen_stage (mk_decompose_config demoArgs)
         { hasClient := true, propose := .ok demoFailingPlan, repair := .error (),
           regenerate := .error () } demoFailingPlan 0).2) ∧
     (regen_stage (mk_decompose_config demoArgs)
       { hasClient := true, propose := .ok demoFailingPlan, repair := .error (),
         regenerate := .error () } demoFailingPlan 0).2 ≤ 3) :=
  ⟨(c8_fallback_always_returned demoArgs
      { hasClient := false, propose := .error (), repair := .error (),
        regenerate := .error () } 0).1 rfl,
   (c8_fallback_always_returned demoArgs
      { hasClient := true, propose := .ok demoFailingPlan, repair := .error (),
        regenerate := .error () } 0).2 demoFailingPlan rfl rfl (by decide)⟩

end FlowBuddy
